import Mathlib

set_option maxRecDepth 10000

/-!
Shallow embedding of `scripts/run_mujoco_eval.py`.

The file embeds, straight from the source:
  * the JAX counter-based PRNG used by the script (`jax.random.PRNGKey(0)` and
    `jax.random.split`, i.e. Threefry-2x32 with the rolled 20-round schedule),
  * the observation batching adapter `_obs_to_batched`,
  * the conditional image resize `_resize_top`,
  * the episode loop `run_episode`.

Machine integers are modelled as `Nat` reduced modulo `2 ^ 32` where the
source works on `uint32`.  Python floats are modelled as exact rationals.
The gym environment, the policy, `cv2` and `imageio` are external
collaborators of the script; they enter the embedding as parameters
(a transition system for the environment, a function for the policy, an
optional resize function for `cv2`, a boolean availability flag for
`imageio`).  The episode `while True:` loop is embedded with an explicit
fuel argument; `run_episode` supplies fuel `max_steps.toNat + 1`, and a
theorem below shows this fuel is never exhausted, which is the termination
statement for the loop.
-/

/-- A PRNG key is a pair of `uint32` words, as in old-style JAX keys. -/
abbrev Key := Nat × Nat

/-- Modulus of `uint32` arithmetic. -/
def w32 : Nat := 4294967296

/-- Addition modulo `2 ^ 32`. -/
def add32 (a b : Nat) : Nat := (a + b) % w32

/-- Left rotation of a 32-bit word by `r` (for `0 < r < 32` and `x < 2 ^ 32`). -/
def rotl32 (x r : Nat) : Nat := x * 2 ^ r % w32 + x / 2 ^ (32 - r)

/-- One Threefry round: `x0 += x1; x1 = rotl(x1, r) ^ x0`. -/
def tfRound (r : Nat) (x : Nat × Nat) : Nat × Nat :=
  let y0 := add32 x.1 x.2
  (y0, rotl32 x.2 r ^^^ y0)

/-- Four consecutive Threefry rounds. -/
def tfRounds4 (r1 r2 r3 r4 : Nat) (x : Nat × Nat) : Nat × Nat :=
  tfRound r4 (tfRound r3 (tfRound r2 (tfRound r1 x)))

/-- The Threefry-2x32 block function (20 rounds), exactly the computation
performed by `jax.random.split` on each counter pair. -/
def threefry2x32 (k : Key) (x : Nat × Nat) : Nat × Nat :=
  let ks0 := k.1
  let ks1 := k.2
  let ks2 := k.1 ^^^ k.2 ^^^ 0x1BD11BDA
  let x := (add32 x.1 ks0, add32 x.2 ks1)
  let x := tfRounds4 13 15 26 6 x
  let x := (add32 x.1 ks1, add32 x.2 (add32 ks2 1))
  let x := tfRounds4 17 29 16 24 x
  let x := (add32 x.1 ks2, add32 x.2 (add32 ks0 2))
  let x := tfRounds4 13 15 26 6 x
  let x := (add32 x.1 ks0, add32 x.2 (add32 ks1 3))
  let x := tfRounds4 17 29 16 24 x
  let x := (add32 x.1 ks1, add32 x.2 (add32 ks2 4))
  let x := tfRounds4 13 15 26 6 x
  (add32 x.1 ks2, add32 x.2 (add32 ks0 5))

/-- The script's hard-coded root key: `jax.random.PRNGKey(0) = [0, 0]`. -/
def PRNGKey (seed : Nat) : Key := (seed / w32 % w32, seed % w32)

/-- Embedding of `jax.random.split(key)`: counters `[0, 1, 2, 3]` are hashed
as the two pairs `(0, 2)` and `(1, 3)`; row 0 of the result is the new key
and row 1 is the sub-key, matching `key, sub = jax.random.split(key)`. -/
def jaxSplit (k : Key) : Key × Key :=
  let b0 := threefry2x32 k (0, 2)
  let b1 := threefry2x32 k (1, 3)
  ((b0.1, b1.1), (b0.2, b1.2))

/-- The chain of carry keys threaded through the episode loop:
`keyChain 0` is the hard-coded root, and each step keeps the first row of
the split. -/
def keyChain : Nat → Key
  | 0 => PRNGKey 0
  | n + 1 => (jaxSplit (keyChain n)).1

/-- The sub-key passed to `sample_actions` on (0-indexed) step `n`. -/
def subKey (n : Nat) : Key := (jaxSplit (keyChain n)).2

/-- Iterative form of the first `n` sub-keys starting from carry key `k`,
used so that long prefixes of the sequence evaluate in linear time. -/
def subKeysF : Nat → Key → List Key
  | 0, _ => []
  | n + 1, k => (jaxSplit k).2 :: subKeysF n (jaxSplit k).1

/-- The carry key after `n` split steps starting from `k` (the first row of
each split, i.e. the key the loop keeps threading). -/
def carryF : Nat → Key → Key
  | 0, k => k
  | n + 1, k => carryF n (jaxSplit k).1

/-- Literal chunks of the sub-key sequence derived from the hard-coded root
key, 25 steps each; the chunk and carry lemmas below verify them against
the Threefry computation, and `subKeysF_eq_chunks` assembles the first
1000 sub-keys. -/
def subChunk0 : List Key := [(2718843009, 1272950319), (1278412471, 2182328957), (4104543539, 3483300570), (1194623263, 2038155241), (2205739499, 3850766070), (2336434339, 995697925), (2705577746, 2909830199), (615925444, 2375634444), (3971862319, 2771547813), (1826286040, 3301512477), (2936998373, 532740107), (3750108614, 191087144), (3569814924, 1778740131), (3940910464, 170047152), (41787198, 1040924135), (1557575498, 2655251966), (1498690236, 1561836495), (2463567379, 2503434077), (2397860033, 1822244650), (594904701, 3354794451), (799645789, 1885581747), (725691213, 1906652437), (115165416, 1916260536), (3411690886, 607095643), (3263519211, 1519023748)]
def subChunk1 : List Key := [(3624820217, 2185659319), (4130920176, 1033827553), (1628816482, 2035717768), (2993338418, 1710709724), (682436797, 3715340887), (1618976143, 3757549763), (2423024170, 748013300), (1232296420, 3358429228), (3788371599, 1717212166), (3603580093, 3786527184), (433479956, 3620285766), (988616341, 1397365974), (3177012308, 2667807661), (1592152347, 98651187), (3132504677, 3684878425), (3143135738, 2669568898), (1001348061, 21519642), (1929544482, 1720758649), (4010511751, 1068849398), (1930279219, 2744121422), (1472524421, 2641016496), (4164766477, 3237192396), (1684297393, 2914375271), (2188742096, 3550097815), (61086360, 2829665391)]
def subChunk2 : List Key := [(468772307, 3995718547), (3809621, 2826604288), (87451914, 1720797745), (361978920, 599144741), (2026358371, 3645335654), (234088711, 3853053828), (3121131631, 2389891863), (2424253778, 3330111524), (3190207344, 1339407794), (1639603821, 2016592066), (2639317030, 4177325492), (2291874875, 615162511), (439350299, 4085862700), (1727672681, 3329330053), (4193081461, 3136385280), (1095314375, 2788700027), (1738177680, 746627805), (2741159615, 2053572984), (1876745155, 494166710), (540321325, 2610894937), (1785304707, 3370173402), (4105578831, 2003478762), (2109718144, 2436213327), (3529051641, 2550254775), (2837480952, 3978650874)]
def subChunk3 : List Key := [(2478941058, 1028868927), (2565160287, 2093905), (529018294, 2803178248), (2068108690, 3554044322), (2831066167, 4068434508), (1728141367, 1857762326), (1543508731, 2078969877), (2441428847, 307664006), (84791682, 1548675903), (408694637, 2126881837), (1533389454, 2498078125), (3556170861, 2787035246), (3425307856, 2408777610), (1358731472, 2582924987), (2375826962, 2272212372), (3548050365, 48609945), (1352911384, 2464900471), (2736770793, 2468434503), (351386778, 3586646330), (2420075970, 324382753), (1063410500, 1497284939), (2432048079, 4257583276), (2516043427, 3453665379), (3771790049, 77924996), (3785803354, 3021367531)]
def subChunk4 : List Key := [(2400293504, 829428497), (3098829340, 2727926332), (2598124962, 2553201507), (1823191131, 2195121142), (1635806906, 2553932590), (528652607, 2124535994), (911751269, 777878625), (4210094253, 1862656749), (2482762694, 1320749215), (1861876099, 64101899), (149495734, 1132013620), (3592206921, 360008178), (453974234, 3546492108), (988896142, 2733585883), (4190870213, 2678804912), (1959622635, 140674706), (976482319, 675350821), (85741524, 3254429216), (2518911061, 4050647433), (2622790852, 1242623600), (2718122287, 235358396), (1319048066, 4047727452), (2461076100, 4273154144), (2644128003, 3463283839), (2228445779, 1989120567)]
def subChunk5 : List Key := [(245843037, 2376002101), (1240095112, 2741786095), (1464765159, 3133602667), (987261303, 2017471838), (614298217, 2725469162), (1259803068, 3865334232), (1675966155, 3556982972), (1566799056, 460163124), (3030492021, 3162194218), (1000899039, 2597127177), (1446940141, 3785080262), (4018376879, 775010883), (3106123131, 1117378917), (176099389, 649464732), (1114860388, 2503327661), (4053324036, 791314137), (257460683, 907855037), (2734243111, 896412682), (3993143815, 1516912332), (3281404809, 3068489625), (3132440013, 2487805920), (258975428, 974657625), (1718240412, 2483133409), (647374149, 3967245480), (3414413731, 1095105153)]
def subChunk6 : List Key := [(3649960752, 1205803511), (2759543047, 3414861365), (3381195092, 1883680715), (2357821897, 3242723528), (2632979401, 705506691), (3458827801, 1632071034), (3780193362, 2531585216), (182285685, 2959244535), (3424670219, 2321013948), (365459173, 1364326211), (504289286, 1657193543), (3559249327, 4016142167), (875089810, 3243913594), (2207201550, 3476667190), (2691388481, 2156017532), (1840208767, 930551899), (2574729770, 3068624125), (1553791538, 159765962), (242598832, 3348875647), (3454038194, 4278083985), (128895440, 3795979779), (3958069862, 3968684090), (2844789405, 1571865774), (3698169585, 4257204822), (2872399, 2928509589)]
def subChunk7 : List Key := [(2671783990, 4200898485), (784011270, 3069911130), (946664654, 1267415628), (2960045325, 3300318798), (4027485293, 2682262295), (3518790178, 2799517842), (2460199337, 1142580275), (3885327141, 2474177994), (2952459848, 3718662743), (2045876274, 2756300804), (2163172706, 3230005647), (3707031259, 3119326827), (3015067622, 3612062462), (3239887520, 2286269060), (3100857105, 1735259144), (3356132941, 3644020395), (1222522278, 1592537415), (1119661233, 1758559045), (3534813729, 176042004), (2828506852, 3227622921), (3001220258, 1050488861), (498264471, 1910372766), (852707011, 3016886217), (2487480937, 2436088452), (2722322668, 2951160958)]
def subChunk8 : List Key := [(1274387453, 4244499716), (3573517459, 2410449339), (3963188977, 550404300), (2489743682, 1373817092), (2525992403, 2251947132), (2711252126, 944945267), (539008509, 2131811500), (2998474536, 3328398182), (3542680373, 1362755773), (1506401037, 2384044514), (1537947754, 3616348123), (866974918, 326834723), (1813928179, 4261423197), (1801434427, 4137469672), (3456352480, 1707202887), (1312936712, 1439483420), (1383917836, 1195105690), (354074436, 3469164807), (1705370746, 1999674462), (3520499931, 899546448), (808037615, 1979199543), (3468736701, 3494535552), (1673953880, 3927457576), (301538232, 192877449), (942682433, 822261783)]
def subChunk9 : List Key := [(684945013, 3801862494), (2747256769, 1587626503), (614879383, 697008567), (2663333835, 2757088181), (3284109892, 2386469705), (2782757453, 604964710), (4176676964, 42713293), (1290682401, 2163689573), (756988782, 3504032573), (1032052002, 965305544), (1185484839, 2106569823), (314377914, 3851155834), (1717048153, 3153432757), (1613989071, 3897996066), (1515438320, 1370975637), (1697227612, 488850734), (375757617, 815980545), (1318416402, 1969821666), (4166150563, 163976756), (1207091318, 2893173751), (1130956419, 2465341859), (591893007, 875892673), (574714368, 2937161996), (18983797, 2564168697), (2044846711, 894137789)]
def subChunk10 : List Key := [(234621931, 225634997), (1395154317, 67299362), (246692798, 1302448332), (2952420465, 1677594652), (398119548, 3177981132), (1446258684, 3402541015), (3758462389, 1558859054), (3707034783, 290032079), (1357599105, 3907261558), (1826086376, 2123838550), (3837687385, 160344234), (2174193247, 284365021), (2630747944, 736067438), (2879419808, 1088468990), (1217368062, 2285142361), (4252400979, 974814469), (1341132811, 1589326500), (2108300566, 3505251505), (3117973610, 1441837956), (3852295050, 3435392260), (3777411065, 356005923), (3064903198, 1638653155), (2876613533, 3445903699), (3445741628, 1954774633), (3410622641, 1591087595)]
def subChunk11 : List Key := [(3486925074, 1111530755), (3474379656, 1006990742), (1585625546, 2816273939), (3415001306, 1554914552), (1099771875, 2661343561), (2268052963, 1561601935), (1463359345, 2040234094), (1898557744, 2989117456), (3852890954, 1633008969), (2833846410, 698479486), (2111797206, 3593130261), (2645570134, 2977711642), (3315309016, 2001794560), (2607486042, 4142881251), (2535198306, 1769863469), (1282659300, 1601740790), (887987465, 4272859219), (1401337886, 940285912), (2094856273, 1813642327), (863232392, 4056051361), (3347166294, 3479375317), (3283761640, 4086190), (1171478247, 1855486812), (835259985, 1130941201), (3051794578, 2038688011)]
def subChunk12 : List Key := [(1276846047, 2660288761), (3159286370, 3096978521), (3983308745, 2520740650), (2075635229, 787996831), (4260489382, 1451548732), (51323756, 58393891), (1110024844, 3787038976), (1619191138, 4004884604), (2351796375, 2944005067), (2284865326, 1017484884), (977094400, 1141217137), (575391950, 4188459979), (1242695793, 4137718995), (2067427457, 2152736276), (189351925, 1492601486), (695577635, 2263124918), (2563235043, 3639504037), (2233929783, 2779689852), (1989412408, 1724020780), (3807967622, 2776617697), (2628139013, 2387906356), (1253852283, 62660585), (2790954464, 1487016843), (2251445101, 4168787287), (3869830142, 615204826)]
def subChunk13 : List Key := [(2505668345, 1439543359), (1088938533, 2939073962), (1374740504, 1532035637), (1429982349, 447362753), (1420446989, 3565439834), (908985076, 1350473598), (1362910419, 2991443773), (1765731171, 2904993382), (780453702, 2142340811), (1268106763, 4233077530), (2171946461, 1162212312), (2807088852, 1046292), (2126602603, 926649029), (1302273070, 2085293549), (4280407022, 1188616250), (1328032683, 2217084128), (3501924214, 3316687650), (1242172670, 1349280994), (779631223, 1694716853), (170764601, 3743798753), (3980979530, 92156122), (804549410, 2141422806), (1368559120, 2814896451), (1539367986, 12219808), (3640617128, 4202141122)]
def subChunk14 : List Key := [(1462761590, 390830617), (415218574, 3067101740), (2237425845, 1284637591), (490279364, 2375522661), (279267241, 4135362858), (2271431370, 1586239618), (302045701, 3198231547), (622516928, 955998661), (1785110306, 2103034025), (2800136574, 976921328), (3511205747, 1269217805), (2850223999, 989210047), (1965219253, 4019292607), (2087093653, 296009223), (1065962331, 3104332926), (1690234909, 3056780257), (2074232222, 3609442182), (48463101, 2640735163), (124725417, 3566918819), (1512793745, 2256180890), (2994137491, 2081403003), (2422529549, 3903983271), (849977947, 3831767370), (1305249902, 3191546620), (870804990, 2760781295)]
def subChunk15 : List Key := [(4096573467, 4094139182), (4059830417, 1537424389), (333279971, 3300663761), (1930834712, 3004292873), (1165820568, 3563856408), (3150027926, 4131358283), (3492076659, 3217564318), (4105466845, 1641105700), (1565863284, 2860155440), (1041049146, 3451285416), (746932225, 2113185735), (2339156080, 2392320333), (196025234, 2938502176), (3742000170, 2241316112), (2797424532, 3246141123), (3704630451, 4075763809), (2342679300, 2349169021), (3226858178, 2942227227), (3328810547, 522462222), (2979300484, 2796204497), (3296307282, 1012854521), (1972206709, 1027379793), (1730478363, 3305882667), (1832254247, 296274165), (1647300304, 1922058333)]
def subChunk16 : List Key := [(3337300516, 3947235493), (812111712, 1797131927), (3989539268, 1369036511), (1184307260, 144300689), (3810592708, 1294232307), (3230750894, 1808465149), (130257122, 1055377578), (2502454943, 2109577962), (2235082231, 4113265680), (832412135, 2720237236), (1799376269, 2120742343), (2909877140, 4266901756), (1443731367, 3140411875), (2026808990, 2840438621), (629072743, 4183005996), (2025260642, 1129848094), (1903833565, 1476188494), (1549575395, 3473562223), (3791897596, 3941016487), (1903742644, 155831616), (3053264043, 1505594667), (2549846843, 1202616691), (2590207432, 2985297315), (618222797, 2047635061), (2840665660, 1074119060)]
def subChunk17 : List Key := [(368498862, 4216741787), (519506550, 3239246137), (1136352736, 3185604191), (1195298466, 1626550738), (4267674691, 3447171305), (337471832, 1130641114), (4056254761, 1444368538), (1199101661, 694797902), (4281691901, 134700801), (867077495, 1130135247), (4286489519, 2319794995), (1521884095, 2191345340), (590465946, 1015502785), (3240931051, 3942401561), (2055203183, 2585420073), (3009699421, 2102388018), (1838540209, 1743724337), (2297241120, 3937034786), (224677901, 3831859526), (4145943844, 402146003), (348262881, 4094164827), (4104208808, 3048684466), (144156733, 1209510808), (1628337401, 1310801822), (3862321922, 3352599468)]
def subChunk18 : List Key := [(3790940732, 480326860), (3728287022, 4015219497), (179383908, 3809037343), (2322586218, 4046583602), (3606141591, 2842274591), (3230968956, 3172638207), (1920093428, 3646912280), (910971704, 1882770536), (3330548114, 1116261107), (1455808142, 977060391), (1397770459, 1652777781), (2690631119, 1478094371), (914015932, 3811253364), (1213677409, 1804485095), (1017118565, 2698404840), (3945799087, 2336386934), (2923388351, 1970609460), (2473536973, 3932302338), (966830846, 1480411994), (3361264570, 2758961690), (1561318940, 3401154425), (2495375224, 139026377), (29611167, 2244275811), (230661239, 1065627323), (3861990072, 2365554321)]
def subChunk19 : List Key := [(4198765017, 3995590442), (76762770, 922252075), (1607822129, 3245654543), (3960685853, 1960192807), (731039002, 2664395419), (163598115, 630235810), (1622278720, 435039784), (3932525675, 2261510329), (2843687271, 2163142038), (60334418, 1777751878), (2247405745, 1032702516), (1786288382, 2604893050), (934422290, 2421064428), (3642449042, 4237722753), (3809011651, 1372473009), (2971148141, 1288397500), (2651768205, 466628130), (1173953042, 80116661), (1542214435, 3534400529), (860241467, 1442333066), (1142273687, 140658520), (2757137845, 2161310590), (4184250864, 3403708697), (1663985770, 4004838754), (2112710318, 1858958260)]
def subChunk20 : List Key := [(3492165133, 2391419781), (1235236254, 3468063176), (2831882788, 227572295), (2270203468, 223925551), (2159119787, 3431609294), (606269882, 3454874511), (800815789, 1858269744), (3028099696, 3092808731), (3886079185, 3540238067), (3358029277, 2733161644), (3057144149, 2743609848), (2441582834, 3114200905), (3888485755, 2231773876), (4269688697, 1019571207), (1018554731, 586850441), (3717054455, 4131620979), (2862037026, 2074063140), (1090667948, 4116362608), (994108679, 1264147953), (2758726595, 2256649145), (1058177466, 1818553214), (690233614, 2681353197), (2481547632, 3109982313), (1215568275, 688993006), (759635983, 3587837763)]
def subChunk21 : List Key := [(1671291907, 1327086196), (3550462524, 1104321545), (2031879425, 22831517), (2108863742, 2876148223), (140508868, 2121858860), (1653440948, 1669516135), (1894897610, 4102683402), (1382920607, 180828561), (1762763856, 1211255756), (3593193479, 2281591405), (2027094719, 1391487009), (2530762322, 3538013755), (416888698, 2190591588), (220492612, 3188437357), (1001701367, 1195671839), (1258508896, 460077058), (4019551747, 1640332063), (704960060, 358398549), (207470703, 602257937), (1249262698, 3005424059), (2299672560, 2319724900), (1107217100, 1356458343), (2540669220, 487173868), (3639786105, 3527879457), (2878014062, 1600735044)]
def subChunk22 : List Key := [(2548841432, 4237889681), (464321775, 1535054608), (3788441656, 1534581677), (1273742660, 3378253985), (3074871096, 4195052087), (2367321680, 3154831686), (3028579558, 729725218), (2715566673, 3997062274), (1526233150, 1436856465), (916883673, 3999422048), (2184148929, 684094930), (2109121365, 194157416), (1564951102, 1117447484), (302036793, 129918088), (1063711850, 447116147), (2411888542, 1161941648), (2447655560, 1575530126), (287487611, 2352533784), (3077586107, 3112873809), (3688294616, 253298046), (2799519782, 385272006), (2904814586, 3986952084), (3225847283, 2171207456), (2199932170, 837516709), (4124711160, 1905210974)]
def subChunk23 : List Key := [(963242496, 1250316789), (1289733255, 3097198771), (274091962, 2809929793), (2600101084, 2188477448), (3756079200, 1105685267), (3284203697, 3142595037), (3532919329, 3671803362), (2358849605, 2274392625), (762864265, 4011149200), (653688181, 858770506), (3227742262, 309865802), (3454807497, 906620380), (2130977240, 1070372837), (3254665194, 388116942), (1768778331, 2317256266), (3123157056, 466098057), (1017113086, 1612430231), (732896601, 1546349703), (1200367754, 1509801598), (3142402472, 1943482186), (1463653392, 3521906452), (610121937, 612983574), (2573364910, 191794844), (917989448, 11736963), (685265646, 810491890)]
def subChunk24 : List Key := [(1917817840, 1546472823), (1643780536, 3955524066), (445145424, 4001632183), (4001673026, 3638505323), (2660377626, 3281567660), (2216486641, 23635501), (3672994090, 394379042), (631661103, 779238336), (932720354, 1391749340), (660059557, 326445704), (2607884518, 1777714036), (971481512, 2452705690), (3182167709, 2386422671), (1974247078, 2236858172), (1734560980, 3434046791), (4024214779, 477535005), (2688501290, 3692152267), (4197646457, 3667561749), (3365291625, 3095883442), (3122702413, 1258245753), (59412581, 1726886460), (611725408, 324450818), (2871763748, 1835863568), (2792416506, 1484159999), (778047812, 3754989969)]
def subChunk25 : List Key := [(3621009984, 3787808216), (3307420791, 1895151637), (2743202169, 2304510764), (2020853369, 2097206682), (3666815077, 89862995), (1934796607, 4282037707), (3815307770, 1340498543), (1385000714, 2354234836), (1918837453, 1960846338), (14008824, 1168640474), (3465097419, 134365721), (433533822, 1475083310), (541572255, 3615892), (1479610718, 2532621229), (1301618534, 339354116), (1341242123, 176874406), (2462881532, 153943606), (3511168979, 1953362785), (4286270133, 2243124227), (1066420568, 626725748), (2872038008, 1556217562), (1391654932, 3313862107), (3696038086, 3439775975), (2008170717, 1029462772), (513348628, 113000519)]
def subChunk26 : List Key := [(2373686874, 233734167), (4276568889, 1924709127), (1461236395, 2663453080), (2371069230, 409570782), (365381422, 3858209347), (3081431071, 440541556), (2501018063, 2217932852), (1275348058, 3916500464), (1036061742, 3860619475), (1026271599, 3600205417), (2170500926, 2510150548), (2333717125, 1044994032), (2317360009, 1144987401), (990318921, 3118794350), (2950982901, 1975296590), (4133323508, 2907651981), (3616637153, 4282365930), (3406422399, 3808276118), (3259551508, 1326053627), (3358478184, 3521750363), (429487249, 2514928213), (336862953, 3443361789), (1186319091, 1683548), (2296161286, 2732294425), (3566985259, 1320380235)]
def subChunk27 : List Key := [(1538523617, 1039497328), (4009694078, 4056250618), (4292298233, 1501985874), (2205660626, 335444007), (3247518279, 911342591), (4116731572, 2786239521), (1403825536, 1556293509), (2186057248, 1594939656), (2146351115, 3808163865), (1451008164, 3171059395), (2365330600, 13807209), (1605990136, 782702556), (3857832921, 2033604768), (2002157426, 3955367940), (248205054, 3994822741), (2381876772, 4244644089), (3748322133, 87029037), (76126150, 2558593093), (1534932223, 4185022177), (1541555619, 3382956469), (2815290053, 389061157), (3750693575, 2926712365), (2507896002, 1301056385), (258364522, 3368988332), (2652657407, 1077854709)]
def subChunk28 : List Key := [(2746534414, 3683993423), (582599621, 587520395), (234017472, 2301790715), (2793871442, 2544658933), (3002958663, 3653242945), (2842530556, 2174047942), (1247217470, 2317323314), (2055931170, 2350162698), (2610377334, 4022604617), (3921698136, 2915541827), (51114314, 3643476194), (1424128698, 2683329767), (3182084969, 3026889771), (688831183, 2075498908), (2818494290, 1747316254), (3679708332, 1193928083), (2572164343, 1679111780), (2721097798, 3069181400), (402616142, 1073133431), (1439635501, 766306113), (1837129574, 2232270734), (1271719296, 231642976), (2383869736, 813385709), (3677794572, 7012194), (702606293, 1455097728)]
def subChunk29 : List Key := [(3330974824, 3064269471), (3345184303, 2599054896), (4115419273, 1647558342), (3347028379, 258274313), (2625366307, 1178836225), (975067441, 3140700096), (433232330, 2857154092), (4119368078, 3774813511), (3188917363, 38145437), (1446809174, 3270830313), (2169031546, 2566736355), (3109065177, 500908171), (2701530163, 592114123), (2097864687, 3931869632), (4041416643, 696132510), (2599442330, 3425919688), (2872834112, 2592524196), (1793266377, 2786616343), (2075853229, 2030262180), (3141940079, 3469595495), (2396579641, 2398334944), (1219804090, 3920897759), (4062240833, 3733764252), (4137020696, 1142376077), (1120187986, 2773313504)]
def subChunk30 : List Key := [(1982858120, 3976207541), (1251384162, 4210989085), (2935374164, 3836497294), (479904414, 3501369980), (733497954, 3329484772), (2456692113, 19738004), (146626209, 1498780270), (1505116005, 2990680580), (4074094527, 2071855615), (3327844645, 276439293), (185716578, 332258052), (214550315, 2804596386), (2426153723, 2730000856), (3835536505, 1476692278), (4219516374, 3088898318), (1267293167, 3099549854), (244056776, 1041314204), (1852634036, 2279680288), (3353075862, 4031131190), (4029485014, 3542560410), (1354540522, 3295428951), (1656210185, 1301650705), (3777894798, 853479593), (4023276763, 2477730106), (3047758344, 2930249012)]
def subChunk31 : List Key := [(347622396, 1596605834), (3287076630, 1382718996), (371943453, 3698073579), (4248485341, 1755093842), (1516224235, 1076498170), (3743075906, 168123813), (913685319, 1060076159), (3680248743, 4092732508), (3928084831, 650264754), (3324322444, 3607216650), (2275679385, 1799638393), (2958789989, 3927929604), (1397961414, 2439541217), (1401224636, 2344043045), (4215394608, 3419412372), (1012669405, 4095009909), (354934670, 2858251525), (1109358948, 3627505556), (998061853, 2646259858), (3139115886, 2998367206), (2646312081, 1018840832), (2382259360, 3417642946), (2028369960, 2759650052), (1000854644, 4201260833), (798006468, 46450301)]
def subChunk32 : List Key := [(4092260739, 2838806962), (2973910724, 2613042068), (2290197100, 2202163963), (712621554, 2671251366), (2817207295, 574679018), (2811267703, 133115472), (2045024648, 465293520), (1927562569, 1310469288), (3988146818, 2777058373), (2260039629, 4070497375), (4046813530, 1537949858), (1299824699, 521767822), (1895962038, 2386055919), (564445222, 211216698), (740181955, 1620563791), (2393201361, 3600361382), (4001159913, 1803898615), (2610277367, 2500478773), (721004548, 304264500), (4219510348, 4002106014), (3314656686, 1554181585), (2871405934, 3735221439), (614999459, 3672477977), (777394443, 2656442463), (4206963936, 3024081474)]
def subChunk33 : List Key := [(1413438542, 2030916993), (3646799410, 2111215761), (2018005920, 1316548318), (1059844688, 1470963880), (159454314, 2957143928), (3906871556, 2658399313), (2560455438, 3613630274), (4080435671, 3862459703), (637023479, 89747820), (1688957594, 650030204), (3148490669, 2426189881), (3682526866, 4229095116), (2777605171, 423771292), (2838145233, 1386606322), (3970606035, 3107811922), (2137874656, 2384398753), (1515848660, 1432850443), (1260613955, 3606525876), (740014621, 918929792), (4225177337, 4139512054), (3516419930, 391199), (1121531643, 3793951936), (4110335366, 2263646731), (3449428274, 1686526020), (635835075, 2351147957)]
def subChunk34 : List Key := [(3512143486, 3703106510), (2992211131, 3934809048), (1204289724, 1391492851), (1680634472, 2735463831), (1037796975, 1275411067), (1359382967, 1586679597), (4061136481, 3002047943), (1029675774, 1343304185), (3822398477, 4246523199), (2961268642, 1064569510), (508260688, 4209749483), (428595652, 3386973852), (3724256040, 1642901778), (1150554259, 1336879486), (2339932025, 3581071661), (3850349467, 1647211975), (982213274, 249139256), (4018307821, 1947897959), (3056907173, 2895170376), (1598303820, 2975213896), (4128369590, 3307549664), (3670853345, 1843351986), (2649768947, 2515970890), (1067598768, 3265968066), (663358317, 3886853532)]
def subChunk35 : List Key := [(280806236, 1172936001), (1107601674, 1963740436), (693891066, 733010058), (990600410, 4091871685), (2732967044, 2914587836), (2111842836, 2886797712), (997994892, 1082727807), (502531409, 2500673735), (2500702827, 2057698251), (1926233026, 1710024055), (1408493521, 2604116551), (4125526082, 1018393520), (675029366, 41241641), (113770149, 3153249342), (1511021778, 1006201466), (578712330, 1613380165), (1488659684, 2574944401), (3593653838, 3181787647), (1870541353, 2159719903), (1932651228, 2579692386), (646460401, 1097253120), (656036393, 2389918476), (4068162611, 572163295), (1332392449, 3006061227), (575899508, 4188537383)]
def subChunk36 : List Key := [(3837104086, 2600824547), (1757209278, 1058140765), (3962347722, 3154955592), (1580253846, 63472225), (1221748898, 3776956111), (3933087800, 2120739381), (3941382813, 3050452989), (3990313889, 1152216286), (3670987264, 1817011915), (788676387, 4121591034), (3835916762, 696652246), (1773558789, 1503966389), (3225256782, 1362684225), (4248686562, 2891212280), (65447302, 3407633318), (3536135314, 747789136), (4009883927, 3857912950), (1221146224, 133990525), (3112733735, 2863929372), (981624923, 2466264003), (912582231, 1761050327), (4198556713, 1447940262), (2581492509, 245635017), (2505991745, 1308728231), (2435977744, 2455511846)]
def subChunk37 : List Key := [(3552045722, 1288354460), (357452739, 1188743194), (3756100175, 2066629335), (3876527677, 3701203343), (2165722604, 3810498634), (982709401, 2987591090), (643770148, 4212098516), (1298729675, 887816365), (574243081, 3768152147), (1623116423, 1266537843), (2282066537, 3397532146), (3879839113, 3637247050), (323215521, 4093590903), (1107319280, 2389571832), (3223931961, 472177134), (887679902, 2576381372), (2045188134, 3206471139), (2334200265, 209103015), (365955485, 3637804818), (3863364679, 2037001009), (1135090348, 393300439), (1945163740, 948407270), (3712239844, 2997417441), (25172871, 3435120715), (1956199664, 2156942058)]
def subChunk38 : List Key := [(613652466, 1528554435), (334719869, 607367445), (4042076847, 2470397632), (160362067, 602431435), (1257968705, 366700953), (562427434, 1245720942), (896844033, 3830892973), (2182637437, 3582097645), (3415460349, 2773393315), (3429804276, 3369543991), (3642873588, 2761032826), (3823875865, 2264296177), (3179219463, 3418516981), (2741379762, 2497388824), (145833629, 410882344), (559346318, 1957159589), (878543573, 1038541505), (1396250766, 1644043662), (1376101000, 1254759574), (2783894028, 3685612188), (844886910, 3659323080), (864372310, 367574258), (3965407696, 2341410930), (1396291712, 186796776), (2665400, 3726415858)]
def subChunk39 : List Key := [(828616004, 1419962574), (2857453654, 3815556071), (2130022841, 352042223), (3875421664, 2074250136), (3386724808, 4121358406), (3311536083, 2414937627), (3728939889, 1277173790), (3124658401, 3781182466), (794675317, 1512501386), (604000243, 218883563), (2217732279, 3152999280), (3264578927, 2297973087), (13393681, 2092684628), (1418737606, 4002606597), (2304261030, 2974279083), (610916841, 81570674), (781929115, 7990830), (672182753, 3054137239), (4030870149, 1740892690), (943599656, 2268556263), (3372020162, 2997820102), (2217098380, 75869072), (2098009024, 1341329094), (4278922237, 3212118220), (3282181758, 38255019)]

/-- The first 1000 sub-keys of the episode loop, as a literal list. -/
def subKeyList1000 : List Key := subChunk0 ++ subChunk1 ++ subChunk2 ++ subChunk3 ++ subChunk4 ++ subChunk5 ++ subChunk6 ++ subChunk7 ++ subChunk8 ++ subChunk9 ++ subChunk10 ++ subChunk11 ++ subChunk12 ++ subChunk13 ++ subChunk14 ++ subChunk15 ++ subChunk16 ++ subChunk17 ++ subChunk18 ++ subChunk19 ++ subChunk20 ++ subChunk21 ++ subChunk22 ++ subChunk23 ++ subChunk24 ++ subChunk25 ++ subChunk26 ++ subChunk27 ++ subChunk28 ++ subChunk29 ++ subChunk30 ++ subChunk31 ++ subChunk32 ++ subChunk33 ++ subChunk34 ++ subChunk35 ++ subChunk36 ++ subChunk37 ++ subChunk38 ++ subChunk39

def packNat (k : Key) : Nat := k.1 * 4294967296 + k.2

def mergeF : Nat → List Nat → List Nat → List Nat
  | 0, a, b => a ++ b
  | _ + 1, [], b => b
  | _ + 1, x :: xs, [] => x :: xs
  | f + 1, x :: xs, y :: ys =>
    if x ≤ y then x :: mergeF f xs (y :: ys) else y :: mergeF f (x :: xs) ys

def mergeAll : List (List Nat) → List Nat
  | [] => []
  | l :: ls => mergeF 100000 l (mergeAll ls)

def sortChunks (ls : List (List Nat)) : List Nat :=
  mergeAll (ls.map (fun l => l.insertionSort (· ≤ ·)))

def chainLt : List Nat → Bool
  | [] => true
  | [_] => true
  | x :: y :: xs => x < y && chainLt (y :: xs)

def chunkListsN : List (List Key) :=
  [subChunk0, subChunk1, subChunk2, subChunk3, subChunk4, subChunk5, subChunk6,
   subChunk7, subChunk8, subChunk9, subChunk10, subChunk11, subChunk12, subChunk13,
   subChunk14, subChunk15, subChunk16, subChunk17, subChunk18, subChunk19, subChunk20,
   subChunk21, subChunk22, subChunk23, subChunk24, subChunk25, subChunk26, subChunk27,
   subChunk28, subChunk29, subChunk30, subChunk31, subChunk32, subChunk33, subChunk34,
   subChunk35, subChunk36, subChunk37, subChunk38, subChunk39]

/-- A leaf of an observation structure: either a numeric array (given by its
shape and flat data, as produced by `np.asarray`) or a value that cannot be
coerced to a numeric array (`np.asarray` raises on it). -/
inductive Leaf where
  | arr (shape : List Nat) (data : List Rat) : Leaf
  | bad (tag : String) : Leaf
deriving DecidableEq, Repr

/-- An observation: a numeric leaf or a Python dict, encoded as a spine of
key-value pairs (`mnil` is the empty dict, `mcons k v rest` a dict whose
first entry is `k ↦ v`).  This covers the shapes the script handles: flat
arrays and nested dicts such as `{"pixels": {"top": img}}`. -/
inductive Obs where
  | leaf : Leaf → Obs
  | mnil : Obs
  | mcons : String → Obs → Obs → Obs
deriving DecidableEq, Repr

/-- The error raised when a leaf cannot be coerced by `np.asarray`; the spec
calls this condition `MalformedObservation`. -/
structure MalformedObservation where
  tag : String
deriving DecidableEq, Repr

/-- Whether every leaf of the observation is a coercible numeric array. -/
def goodObs : Obs → Bool
  | .leaf (.arr _ _) => true
  | .leaf (.bad _) => false
  | .mnil => true
  | .mcons _ v r => goodObs v && goodObs r

/-- Pure description of what batching does to one coercible leaf:
`np.asarray(x)[None, ...]` prepends a leading dimension of size 1. -/
def batchLeaf : Leaf → Leaf
  | .arr shape data => .arr (1 :: shape) data
  | .bad t => .bad t

/-- The structure-preserving map that batches every leaf. -/
def batchMap : Obs → Obs
  | .leaf l => .leaf (batchLeaf l)
  | .mnil => .mnil
  | .mcons k v r => .mcons k (batchMap v) (batchMap r)

/-- Embedding of `_obs_to_batched`:
`jax.tree_util.tree_map(lambda x: np.asarray(x)[None, ...], ob)`.
The map visits every leaf; a non-coercible leaf raises, which propagates
(the script never catches it). -/
def _obs_to_batched : Obs → Except MalformedObservation Obs
  | .leaf (.arr shape data) => .ok (.leaf (.arr (1 :: shape) data))
  | .leaf (.bad t) => .error ⟨t⟩
  | .mnil => .ok .mnil
  | .mcons k v r => do
    let v2 ← _obs_to_batched v
    let r2 ← _obs_to_batched r
    pure (.mcons k v2 r2)

/-- The leaves of an observation in traversal order. -/
def leaves : Obs → List Leaf
  | .leaf l => [l]
  | .mnil => []
  | .mcons _ v r => leaves v ++ leaves r

/-- The key skeleton of an observation: its nesting and keys with leaf
contents erased. -/
inductive Skel where
  | leaf : Skel
  | mnil : Skel
  | mcons : String → Skel → Skel → Skel
deriving DecidableEq, Repr

/-- Erase leaf contents, keeping keys and nesting. -/
def skeleton : Obs → Skel
  | .leaf _ => .leaf
  | .mnil => .mnil
  | .mcons k v r => .mcons k (skeleton v) (skeleton r)

/-- Python dict membership and access `ob[k]` on the encoded spine
(first matching key; Python dicts have unique keys). -/
def lookup : Obs → String → Option Obs
  | .mcons k v r, key => if k = key then some v else lookup r key
  | _, _ => none

/-- Python dict assignment `ob[k] = v` on a key that is present: replace the
first binding of `k`, keep everything else. -/
def updateKey : Obs → String → Obs → Obs
  | .mcons k v r, key, nv => if k = key then .mcons k nv r else .mcons k v (updateKey r key nv)
  | ob, _, _ => ob

/-- Model of `cv2.resize(img, (W, H), interpolation=cv2.INTER_AREA)`: an
external function from an image leaf and the target `(W, H)` to an image, or
`none` when the call raises.  The script swallows any such exception. -/
abbrev ResizeFn := Leaf → Nat → Nat → Option Leaf

/-- Embedding of the `_resize_top` closure of `run_episode`.  `cv2 = none`
models `import cv2` failing (the bare `except` swallows it).  The transform
touches only `ob["pixels"]["top"]`, and only when that entry is a
3-dimensional array whose leading two dimensions differ from `img_hw`;
every failure or non-matching shape returns the observation unchanged. -/
def _resize_top (cv2 : Option ResizeFn) (img_hw : Nat × Nat) (ob : Obs) : Obs :=
  match cv2 with
  | none => ob
  | some resize =>
    match lookup ob "pixels" with
    | none => ob
    | some px =>
      match lookup px "top" with
      | none => ob
      | some t =>
        match t with
        | .leaf (.arr shape data) =>
          if shape.length = 3 ∧ shape.take 2 ≠ [img_hw.1, img_hw.2] then
            match resize (.arr shape data) img_hw.2 img_hw.1 with
            | some img2 => updateKey ob "pixels" (updateKey px "top" (.leaf img2))
            | none => ob
          else ob
        | _ => ob

/-- An action: a flat numeric vector, as submitted to `env.step`. -/
abbrev EnvAction := List Rat

/-- A rendered frame; its pixel contents are irrelevant to the claims, so it
is modelled as an opaque tag. -/
abbrev Frame := Nat

/-- The restored policy: `sample_actions` takes the batched observation and
a seed and returns a batch of actions; the script always submits batch size
1 and unwraps index 0 of the result, so the batch is modelled as a head
action together with the rest of the batch. -/
structure Agent where
  sample_actions : Obs → Key → EnvAction × List EnvAction

/-- One `env.step(action)` result: `(observation, reward, terminated,
truncated, info)`; the `info` dict is unpacked but never used by the script,
so it is omitted. -/
structure StepResult (σ : Type) where
  state : σ
  obs : Obs
  reward : Rat
  terminated : Bool
  truncated : Bool

/-- The gym environment as a deterministic transition system over an opaque
state type: `reset` yields the initial state and observation, `step` the
next state and step result, `render` an RGB frame (`none` models a render
result that is not a numpy array). -/
structure Env (σ : Type) where
  reset : σ × Obs
  step : σ → EnvAction → StepResult σ
  render : σ → Option Frame

/-- The mutable loop state of `run_episode`: the accumulators `ep_ret` and
`ep_len`, the frame buffer, and the traces of submitted actions, used
sub-seeds and received rewards (the traces are not stored by the script;
they are carried here so the theorems can speak about them). -/
structure LoopAcc where
  ret : Rat
  len : Nat
  frames : List Frame
  actions : List EnvAction
  seeds : List Key
  rewards : List Rat
deriving DecidableEq, Repr

/-- Everything one iteration of the loop body produces. -/
structure IterOut (σ : Type) where
  s : σ
  obs : Obs
  key : Key
  terminated : Bool
  truncated : Bool
  acc : LoopAcc

/-- One iteration of the `while True:` body after the observation has been
batched: split the key, sample one action and unwrap index 0, step the
environment, resize the new observation, update the accumulators, and if
rendering is on append the rendered frame when it is an array and `imageio`
is available. -/
def runStep {σ : Type} (imageio : Bool) (cv2 : Option ResizeFn) (agent : Agent) (env : Env σ)
    (render : Bool) (img_hw : Nat × Nat) (s : σ) (batched : Obs) (key : Key)
    (acc : LoopAcc) : IterOut σ :=
  let ks := jaxSplit key
  let action := (agent.sample_actions batched ks.2).1
  let st := env.step s action
  let obs2 := _resize_top cv2 img_hw st.obs
  let frames2 :=
    if render then
      match env.render st.state with
      | some f => if imageio then acc.frames ++ [f] else acc.frames
      | none => acc.frames
    else acc.frames
  { s := st.state
    obs := obs2
    key := ks.1
    terminated := st.terminated
    truncated := st.truncated
    acc := { ret := acc.ret + st.reward
             len := acc.len + 1
             frames := frames2
             actions := acc.actions ++ [action]
             seeds := acc.seeds ++ [ks.2]
             rewards := acc.rewards ++ [st.reward] } }

/-- The `while True:` loop of `run_episode`, with an explicit fuel argument
(the loop breaks when `terminated or truncated or ep_len >= max_steps`, so
fuel `max_steps.toNat + 1` always suffices; see `runLoopF_isSome`).  A
malformed observation raised by `_obs_to_batched` aborts the loop with the
error. -/
def runLoopF {σ : Type} (imageio : Bool) (cv2 : Option ResizeFn) (agent : Agent) (env : Env σ)
    (render : Bool) (max_steps : Int) (img_hw : Nat × Nat) :
    Nat → σ → Obs → Key → LoopAcc → Option (Except MalformedObservation LoopAcc)
  | 0, _, _, _, _ => none
  | fuel + 1, s, obs, key, acc =>
    match _obs_to_batched obs with
    | .error e => some (.error e)
    | .ok batched =>
      let it := runStep imageio cv2 agent env render img_hw s batched key acc
      if it.terminated = true ∨ it.truncated = true ∨ max_steps ≤ (it.acc.len : Int) then
        some (.ok it.acc)
      else
        runLoopF imageio cv2 agent env render max_steps img_hw fuel it.s it.obs it.key it.acc

/-- Python truthiness of the `record_path` argument (`None` and the empty
string are falsy). -/
def pathTruthy : Option String → Bool
  | none => false
  | some p => p ≠ ""

/-- The episode record returned by `run_episode`:
`dict(return_=ep_ret, length=ep_len)`. -/
structure EpisodeResult where
  return_ : Rat
  length : Nat
deriving DecidableEq, Repr

/-- The observable outcome of one `run_episode` call: the returned record,
the traces of submitted actions, used sub-seeds and received rewards, the
final frame buffer, and the flushed video artifact (path, frames, fps), or
`none` when no video is written. -/
structure RunOut where
  result : EpisodeResult
  actions : List EnvAction
  seeds : List Key
  rewards : List Rat
  frames : List Frame
  video : Option (String × List Frame × Nat)
deriving DecidableEq, Repr

/-- Embedding of `run_episode(agent, env, render, record_path, max_steps,
img_hw)`.  The root key is hard-coded `PRNGKey(0)`; the initial observation
comes from `env.reset()` and is resized; the loop runs with fuel
`max_steps.toNat + 1`; afterwards the frame buffer is flushed to a video at
30 fps only when `record_path` is truthy, `imageio` was imported and frames
were captured.  `none` models fuel exhaustion and is proved impossible. -/
def run_episode {σ : Type} (imageio : Bool) (cv2 : Option ResizeFn) (agent : Agent)
    (env : Env σ) (render : Bool) (record_path : Option String) (max_steps : Int)
    (img_hw : Nat × Nat) : Option (Except MalformedObservation RunOut) :=
  let init := env.reset
  let obs0 := _resize_top cv2 img_hw init.2
  match runLoopF imageio cv2 agent env render max_steps img_hw (max_steps.toNat + 1)
      init.1 obs0 (PRNGKey 0) ⟨0, 0, [], [], [], []⟩ with
  | none => none
  | some (.error e) => some (.error e)
  | some (.ok acc) =>
    let video :=
      if pathTruthy record_path && imageio && !acc.frames.isEmpty then
        some (record_path.getD "", acc.frames, 30)
      else none
    some (.ok { result := { return_ := acc.ret, length := acc.len }
                actions := acc.actions
                seeds := acc.seeds
                rewards := acc.rewards
                frames := acc.frames
                video := video })

/-- Test fixture: a flat numeric observation. -/
def obA : Obs := Obs.leaf (Leaf.arr [2] [1, 2])

/-- Test fixture: an observation whose single leaf cannot be coerced. -/
def obBad : Obs := Obs.mcons "state" (Obs.leaf (Leaf.bad "object")) Obs.mnil

/-- Test fixture: a dict observation with a proprioceptive field and a
`pixels.top` image at resolution 480×640 (not the 240×320 target). -/
def obPix : Obs :=
  Obs.mcons "agent_pos" (Obs.leaf (Leaf.arr [3] [0, 1, 2]))
    (Obs.mcons "pixels"
      (Obs.mcons "top" (Obs.leaf (Leaf.arr [480, 640, 3] [7])) Obs.mnil)
      Obs.mnil)

/-- Test fixture: a policy returning the constant batch `[[0]]`. -/
def agentC : Agent := { sample_actions := fun _ _ => ([0], []) }

/-- Test fixture: an environment that never terminates, pays reward 1 per
step and renders nothing. -/
def envNever : Env Unit :=
  { reset := ((), obA)
    step := fun _ _ => { state := (), obs := obA, reward := 1, terminated := false, truncated := false }
    render := fun _ => none }

/-- Test fixture: an environment whose second step reports `terminated`,
with rewards accumulating to 12.5. -/
def envT : Env Nat :=
  { reset := (0, obA)
    step := fun s _ =>
      { state := s + 1, obs := obA, reward := if s = 0 then 10 else 5/2
        terminated := decide (1 ≤ s), truncated := false }
    render := fun _ => none }

/-- Test fixture: an environment that terminates immediately and renders a
well-formed frame. -/
def envR : Env Unit :=
  { reset := ((), obA)
    step := fun _ _ => { state := (), obs := obA, reward := 0, terminated := true, truncated := false }
    render := fun _ => some 7 }

/-- Test fixture: an environment whose reset observation is malformed. -/
def envBad : Env Unit :=
  { reset := ((), obBad)
    step := fun _ _ => { state := (), obs := obBad, reward := 0, terminated := true, truncated := false }
    render := fun _ => none }

/-- Test fixture: a resize backend that returns an image of the requested
target resolution. -/
def resizeW : ResizeFn := fun l W H =>
  match l with
  | .arr shape data => some (.arr (H :: W :: shape.drop 2) data)
  | .bad _ => none

/-- Extract the successful outcome of a `run_episode` call (test helper). -/
def getOk : Option (Except MalformedObservation RunOut) → RunOut
  | some (.ok o) => o
  | _ => { result := { return_ := 0, length := 0 }, actions := [], seeds := [], rewards := [],
           frames := [], video := none }

/-- Concrete outcome: never-terminating environment, ceiling 2. -/
def outNever2 : RunOut := getOk (run_episode false none agentC envNever false none 2 (240, 320))

/-- Concrete outcome: never-terminating environment, ceiling 0. -/
def outNever0 : RunOut := getOk (run_episode false none agentC envNever false none 0 (240, 320))

/-- Concrete outcome: terminating environment `envT`, default ceiling. -/
def outT : RunOut := getOk (run_episode false none agentC envT false none 1000 (240, 320))

/-- Concrete outcome: rendering environment, `record_path=None`. -/
def outR : RunOut := getOk (run_episode true none agentC envR true none 5 (240, 320))

/-- Concrete outcome: rendering environment with a configured path. -/
def outRP : RunOut := getOk (run_episode true none agentC envR true (some "videos/ep.mp4") 5 (240, 320))

/-- Concrete outcome: never-terminating environment, negative ceiling. -/
def outNeg : RunOut := getOk (run_episode false none agentC envNever false none (-5) (240, 320))

/-- Validation of the Threefry block against the published Random123 known
answer for the all-zero key and counter. -/
theorem threefry_kat_zero : threefry2x32 (0, 0) (0, 0) = (0x6b200159, 0x99ba4efe) := by decide

/-- Validation of the Threefry block against the published Random123 known
answer for the all-ones key and counter. -/
theorem threefry_kat_ones :
    threefry2x32 (0xffffffff, 0xffffffff) (0xffffffff, 0xffffffff) =
      (0x1cb996fc, 0xbb002be7) := by decide

/-- Validation of the Threefry block against the published Random123 known
answer for the pi-digits key and counter. -/
theorem threefry_kat_pi :
    threefry2x32 (0x13198a2e, 0x03707344) (0x243f6a88, 0x85a308d3) =
      (0xc4923a9c, 0x483df7a0) := by decide
theorem subKeysF_add : ∀ (m n : Nat) (k : Key),
    subKeysF (m + n) k = subKeysF m k ++ subKeysF n (carryF m k) := by
  intro m
  induction m with
  | zero => intro n k; simp [subKeysF, carryF]
  | succ m ih =>
    intro n k
    have h : m + 1 + n = (m + n) + 1 := by omega
    rw [h]
    simp only [subKeysF, carryF]
    rw [ih]
    simp [List.cons_append]
theorem subChunk0_eq : subKeysF 25 (0, 0) = subChunk0 := by decide
theorem carry0_eq : carryF 25 (0, 0) = (153401037, 1926559520) := by decide
theorem subChunk1_eq : subKeysF 25 (153401037, 1926559520) = subChunk1 := by decide
theorem carry1_eq : carryF 25 (153401037, 1926559520) = (69219489, 1793060208) := by decide
theorem subChunk2_eq : subKeysF 25 (69219489, 1793060208) = subChunk2 := by decide
theorem carry2_eq : carryF 25 (69219489, 1793060208) = (2873104094, 4248134145) := by decide
theorem subChunk3_eq : subKeysF 25 (2873104094, 4248134145) = subChunk3 := by decide
theorem carry3_eq : carryF 25 (2873104094, 4248134145) = (3212850083, 1853724984) := by decide
theorem subChunk4_eq : subKeysF 25 (3212850083, 1853724984) = subChunk4 := by decide
theorem carry4_eq : carryF 25 (3212850083, 1853724984) = (3621869297, 1061905811) := by decide
theorem subChunk5_eq : subKeysF 25 (3621869297, 1061905811) = subChunk5 := by decide
theorem carry5_eq : carryF 25 (3621869297, 1061905811) = (2684499413, 3888874982) := by decide
theorem subChunk6_eq : subKeysF 25 (2684499413, 3888874982) = subChunk6 := by decide
theorem carry6_eq : carryF 25 (2684499413, 3888874982) = (3737084049, 31877357) := by decide
theorem subChunk7_eq : subKeysF 25 (3737084049, 31877357) = subChunk7 := by decide
theorem carry7_eq : carryF 25 (3737084049, 31877357) = (2460175890, 838584085) := by decide
theorem subChunk8_eq : subKeysF 25 (2460175890, 838584085) = subChunk8 := by decide
theorem carry8_eq : carryF 25 (2460175890, 838584085) = (2774547182, 3545708343) := by decide
theorem subChunk9_eq : subKeysF 25 (2774547182, 3545708343) = subChunk9 := by decide
theorem carry9_eq : carryF 25 (2774547182, 3545708343) = (992915248, 415082876) := by decide
theorem subChunk10_eq : subKeysF 25 (992915248, 415082876) = subChunk10 := by decide
theorem carry10_eq : carryF 25 (992915248, 415082876) = (4249947953, 2761471727) := by decide
theorem subChunk11_eq : subKeysF 25 (4249947953, 2761471727) = subChunk11 := by decide
theorem carry11_eq : carryF 25 (4249947953, 2761471727) = (972984381, 3312549604) := by decide
theorem subChunk12_eq : subKeysF 25 (972984381, 3312549604) = subChunk12 := by decide
theorem carry12_eq : carryF 25 (972984381, 3312549604) = (2498040042, 2577898489) := by decide
theorem subChunk13_eq : subKeysF 25 (2498040042, 2577898489) = subChunk13 := by decide
theorem carry13_eq : carryF 25 (2498040042, 2577898489) = (2909813708, 297319259) := by decide
theorem subChunk14_eq : subKeysF 25 (2909813708, 297319259) = subChunk14 := by decide
theorem carry14_eq : carryF 25 (2909813708, 297319259) = (611462752, 3860202880) := by decide
theorem subChunk15_eq : subKeysF 25 (611462752, 3860202880) = subChunk15 := by decide
theorem carry15_eq : carryF 25 (611462752, 3860202880) = (848533159, 3454000486) := by decide
theorem subChunk16_eq : subKeysF 25 (848533159, 3454000486) = subChunk16 := by decide
theorem carry16_eq : carryF 25 (848533159, 3454000486) = (2095695324, 1379481041) := by decide
theorem subChunk17_eq : subKeysF 25 (2095695324, 1379481041) = subChunk17 := by decide
theorem carry17_eq : carryF 25 (2095695324, 1379481041) = (2289102921, 1000949539) := by decide
theorem subChunk18_eq : subKeysF 25 (2289102921, 1000949539) = subChunk18 := by decide
theorem carry18_eq : carryF 25 (2289102921, 1000949539) = (1483655572, 3254660530) := by decide
theorem subChunk19_eq : subKeysF 25 (1483655572, 3254660530) = subChunk19 := by decide
theorem carry19_eq : carryF 25 (1483655572, 3254660530) = (4016483043, 1733592861) := by decide
theorem subChunk20_eq : subKeysF 25 (4016483043, 1733592861) = subChunk20 := by decide
theorem carry20_eq : carryF 25 (4016483043, 1733592861) = (2126957359, 784512607) := by decide
theorem subChunk21_eq : subKeysF 25 (2126957359, 784512607) = subChunk21 := by decide
theorem carry21_eq : carryF 25 (2126957359, 784512607) = (2840631316, 3934464884) := by decide
theorem subChunk22_eq : subKeysF 25 (2840631316, 3934464884) = subChunk22 := by decide
theorem carry22_eq : carryF 25 (2840631316, 3934464884) = (3778070378, 1600648906) := by decide
theorem subChunk23_eq : subKeysF 25 (3778070378, 1600648906) = subChunk23 := by decide
theorem carry23_eq : carryF 25 (3778070378, 1600648906) = (2204979605, 2353099836) := by decide
theorem subChunk24_eq : subKeysF 25 (2204979605, 2353099836) = subChunk24 := by decide
theorem carry24_eq : carryF 25 (2204979605, 2353099836) = (3973691221, 143965342) := by decide
theorem subChunk25_eq : subKeysF 25 (3973691221, 143965342) = subChunk25 := by decide
theorem carry25_eq : carryF 25 (3973691221, 143965342) = (3947509870, 257327548) := by decide
theorem subChunk26_eq : subKeysF 25 (3947509870, 257327548) = subChunk26 := by decide
theorem carry26_eq : carryF 25 (3947509870, 257327548) = (1149816134, 895681984) := by decide
theorem subChunk27_eq : subKeysF 25 (1149816134, 895681984) = subChunk27 := by decide
theorem carry27_eq : carryF 25 (1149816134, 895681984) = (3416828197, 3575378805) := by decide
theorem subChunk28_eq : subKeysF 25 (3416828197, 3575378805) = subChunk28 := by decide
theorem carry28_eq : carryF 25 (3416828197, 3575378805) = (3883112034, 2124150224) := by decide
theorem subChunk29_eq : subKeysF 25 (3883112034, 2124150224) = subChunk29 := by decide
theorem carry29_eq : carryF 25 (3883112034, 2124150224) = (661799179, 3966311539) := by decide
theorem subChunk30_eq : subKeysF 25 (661799179, 3966311539) = subChunk30 := by decide
theorem carry30_eq : carryF 25 (661799179, 3966311539) = (1813880552, 3209278883) := by decide
theorem subChunk31_eq : subKeysF 25 (1813880552, 3209278883) = subChunk31 := by decide
theorem carry31_eq : carryF 25 (1813880552, 3209278883) = (4237166639, 765011791) := by decide
theorem subChunk32_eq : subKeysF 25 (4237166639, 765011791) = subChunk32 := by decide
theorem carry32_eq : carryF 25 (4237166639, 765011791) = (3100120347, 2513614488) := by decide
theorem subChunk33_eq : subKeysF 25 (3100120347, 2513614488) = subChunk33 := by decide
theorem carry33_eq : carryF 25 (3100120347, 2513614488) = (3508212358, 163644530) := by decide
theorem subChunk34_eq : subKeysF 25 (3508212358, 163644530) = subChunk34 := by decide
theorem carry34_eq : carryF 25 (3508212358, 163644530) = (1442461963, 874056556) := by decide
theorem subChunk35_eq : subKeysF 25 (1442461963, 874056556) = subChunk35 := by decide
theorem carry35_eq : carryF 25 (1442461963, 874056556) = (2238693411, 1094948116) := by decide
theorem subChunk36_eq : subKeysF 25 (2238693411, 1094948116) = subChunk36 := by decide
theorem carry36_eq : carryF 25 (2238693411, 1094948116) = (3690705998, 3665638254) := by decide
theorem subChunk37_eq : subKeysF 25 (3690705998, 3665638254) = subChunk37 := by decide
theorem carry37_eq : carryF 25 (3690705998, 3665638254) = (3765876174, 4095105270) := by decide
theorem subChunk38_eq : subKeysF 25 (3765876174, 4095105270) = subChunk38 := by decide
theorem carry38_eq : carryF 25 (3765876174, 4095105270) = (3370685646, 3179675837) := by decide
theorem subChunk39_eq : subKeysF 25 (3370685646, 3179675837) = subChunk39 := by decide
theorem carry39_eq : carryF 25 (3370685646, 3179675837) = (1444858984, 1146830678) := by decide

theorem subKeysF_eq_chunks : subKeysF 1000 (PRNGKey 0) = subKeyList1000 := by
  rw [show PRNGKey 0 = (0, 0) from rfl]
  rw [show (1000 : Nat) = 25 + 975 from rfl, subKeysF_add, subChunk0_eq, carry0_eq]
  rw [show (975 : Nat) = 25 + 950 from rfl, subKeysF_add, subChunk1_eq, carry1_eq]
  rw [show (950 : Nat) = 25 + 925 from rfl, subKeysF_add, subChunk2_eq, carry2_eq]
  rw [show (925 : Nat) = 25 + 900 from rfl, subKeysF_add, subChunk3_eq, carry3_eq]
  rw [show (900 : Nat) = 25 + 875 from rfl, subKeysF_add, subChunk4_eq, carry4_eq]
  rw [show (875 : Nat) = 25 + 850 from rfl, subKeysF_add, subChunk5_eq, carry5_eq]
  rw [show (850 : Nat) = 25 + 825 from rfl, subKeysF_add, subChunk6_eq, carry6_eq]
  rw [show (825 : Nat) = 25 + 800 from rfl, subKeysF_add, subChunk7_eq, carry7_eq]
  rw [show (800 : Nat) = 25 + 775 from rfl, subKeysF_add, subChunk8_eq, carry8_eq]
  rw [show (775 : Nat) = 25 + 750 from rfl, subKeysF_add, subChunk9_eq, carry9_eq]
  rw [show (750 : Nat) = 25 + 725 from rfl, subKeysF_add, subChunk10_eq, carry10_eq]
  rw [show (725 : Nat) = 25 + 700 from rfl, subKeysF_add, subChunk11_eq, carry11_eq]
  rw [show (700 : Nat) = 25 + 675 from rfl, subKeysF_add, subChunk12_eq, carry12_eq]
  rw [show (675 : Nat) = 25 + 650 from rfl, subKeysF_add, subChunk13_eq, carry13_eq]
  rw [show (650 : Nat) = 25 + 625 from rfl, subKeysF_add, subChunk14_eq, carry14_eq]
  rw [show (625 : Nat) = 25 + 600 from rfl, subKeysF_add, subChunk15_eq, carry15_eq]
  rw [show (600 : Nat) = 25 + 575 from rfl, subKeysF_add, subChunk16_eq, carry16_eq]
  rw [show (575 : Nat) = 25 + 550 from rfl, subKeysF_add, subChunk17_eq, carry17_eq]
  rw [show (550 : Nat) = 25 + 525 from rfl, subKeysF_add, subChunk18_eq, carry18_eq]
  rw [show (525 : Nat) = 25 + 500 from rfl, subKeysF_add, subChunk19_eq, carry19_eq]
  rw [show (500 : Nat) = 25 + 475 from rfl, subKeysF_add, subChunk20_eq, carry20_eq]
  rw [show (475 : Nat) = 25 + 450 from rfl, subKeysF_add, subChunk21_eq, carry21_eq]
  rw [show (450 : Nat) = 25 + 425 from rfl, subKeysF_add, subChunk22_eq, carry22_eq]
  rw [show (425 : Nat) = 25 + 400 from rfl, subKeysF_add, subChunk23_eq, carry23_eq]
  rw [show (400 : Nat) = 25 + 375 from rfl, subKeysF_add, subChunk24_eq, carry24_eq]
  rw [show (375 : Nat) = 25 + 350 from rfl, subKeysF_add, subChunk25_eq, carry25_eq]
  rw [show (350 : Nat) = 25 + 325 from rfl, subKeysF_add, subChunk26_eq, carry26_eq]
  rw [show (325 : Nat) = 25 + 300 from rfl, subKeysF_add, subChunk27_eq, carry27_eq]
  rw [show (300 : Nat) = 25 + 275 from rfl, subKeysF_add, subChunk28_eq, carry28_eq]
  rw [show (275 : Nat) = 25 + 250 from rfl, subKeysF_add, subChunk29_eq, carry29_eq]
  rw [show (250 : Nat) = 25 + 225 from rfl, subKeysF_add, subChunk30_eq, carry30_eq]
  rw [show (225 : Nat) = 25 + 200 from rfl, subKeysF_add, subChunk31_eq, carry31_eq]
  rw [show (200 : Nat) = 25 + 175 from rfl, subKeysF_add, subChunk32_eq, carry32_eq]
  rw [show (175 : Nat) = 25 + 150 from rfl, subKeysF_add, subChunk33_eq, carry33_eq]
  rw [show (150 : Nat) = 25 + 125 from rfl, subKeysF_add, subChunk34_eq, carry34_eq]
  rw [show (125 : Nat) = 25 + 100 from rfl, subKeysF_add, subChunk35_eq, carry35_eq]
  rw [show (100 : Nat) = 25 + 75 from rfl, subKeysF_add, subChunk36_eq, carry36_eq]
  rw [show (75 : Nat) = 25 + 50 from rfl, subKeysF_add, subChunk37_eq, carry37_eq]
  rw [show (50 : Nat) = 25 + 25 from rfl, subKeysF_add, subChunk38_eq, carry38_eq]
  rw [subChunk39_eq]
  rfl

theorem chainLt_sound : ∀ l : List Nat, chainLt l = true → l.Chain' (· < ·) := by
  intro l
  induction l with
  | nil => intro _; exact List.chain'_nil
  | cons x xs ih =>
    cases xs with
    | nil => intro _; simp
    | cons y ys =>
      intro h
      simp only [chainLt, Bool.and_eq_true, decide_eq_true_eq] at h
      exact List.Chain'.cons h.1 (ih (by simp [chainLt, h.2]))

theorem mergeF_perm : ∀ (f : Nat) (a b : List Nat), List.Perm (mergeF f a b) (a ++ b) := by
  intro f
  induction f with
  | zero => intro a b; exact List.Perm.refl _
  | succ f ih =>
    intro a b
    match a, b with
    | [], b => simp [mergeF]
    | x :: xs, [] => simp [mergeF]
    | x :: xs, y :: ys =>
      simp only [mergeF]
      split
      · exact (ih xs (y :: ys)).cons x
      · refine ((ih (x :: xs) ys).cons y).trans ?_
        have hm : List.Perm ((x :: xs) ++ y :: ys) (y :: ((x :: xs) ++ ys)) := List.perm_middle
        simpa using hm.symm

theorem sortChunks_perm : ∀ ls : List (List Nat), List.Perm (sortChunks ls) ls.flatten := by
  intro ls
  induction ls with
  | nil => simp [sortChunks, mergeAll]
  | cons l ls ih =>
    have h1 : sortChunks (l :: ls) =
        mergeF 100000 (l.insertionSort (· ≤ ·)) (sortChunks ls) := rfl
    rw [h1, List.flatten_cons]
    exact (mergeF_perm _ _ _).trans
      (List.Perm.append (List.perm_insertionSort _ l) ih)

theorem chunks_sorted : chainLt (sortChunks (chunkListsN.map (List.map packNat))) = true := by
  decide

theorem subKeyList1000_join : (chunkListsN.map (List.map packNat)).flatten =
    subKeyList1000.map packNat := by
  simp [chunkListsN, subKeyList1000, List.flatten]

theorem subKeyList1000_nodup : subKeyList1000.Nodup := by
  have hch := chainLt_sound _ chunks_sorted
  have hpw : (sortChunks (chunkListsN.map (List.map packNat))).Pairwise (· < ·) :=
    List.chain'_iff_pairwise.mp hch
  have hnd : (sortChunks (chunkListsN.map (List.map packNat))).Nodup :=
    hpw.imp (fun h => LT.lt.ne h)
  have hperm := sortChunks_perm (chunkListsN.map (List.map packNat))
  have hjoin : ((chunkListsN.map (List.map packNat)).flatten).Nodup :=
    (hperm.nodup_iff).mp hnd
  rw [subKeyList1000_join] at hjoin
  exact List.Nodup.of_map packNat hjoin

theorem subKeysF_nodup : (subKeysF 1000 (PRNGKey 0)).Nodup := by
  rw [subKeysF_eq_chunks]
  exact subKeyList1000_nodup

/-- The iterative sub-key list agrees with the per-index sub-keys of the
carry chain. -/
theorem subKeysF_eq_range : ∀ (n m : Nat), subKeysF n (keyChain m) = (List.range' m n).map subKey := by
  intro n
  induction n with
  | zero => intro m; simp [subKeysF]
  | succ n ih =>
    intro m
    have hk : (jaxSplit (keyChain m)).1 = keyChain (m + 1) := rfl
    have hs : (jaxSplit (keyChain m)).2 = subKey m := rfl
    simp only [subKeysF, hk, hs, ih (m + 1), List.range'_succ, List.map_cons]

/-- The first `n ≤ 1000` sub-keys of the episode sequence are pairwise
distinct. -/
theorem range_subKey_nodup (n : Nat) (h : n ≤ 1000) : ((List.range n).map subKey).Nodup := by
  have h1000 : ((List.range 1000).map subKey).Nodup := by
    have := subKeysF_eq_range 1000 0
    rw [show keyChain 0 = PRNGKey 0 from rfl] at this
    rw [List.range_eq_range', ← this]
    exact subKeysF_nodup
  exact List.Nodup.sublist (List.Sublist.map subKey (List.range_sublist.mpr h)) h1000

/-- On an observation whose leaves are all coercible, `_obs_to_batched`
succeeds with the structure-preserving leaf map. -/
theorem batch_good : ∀ ob : Obs, goodObs ob = true → _obs_to_batched ob = .ok (batchMap ob) := by
  intro ob
  induction ob with
  | leaf l =>
    cases l with
    | arr s d => intro _; rfl
    | bad t => intro h; simp [goodObs] at h
  | mnil => intro _; rfl
  | mcons k v r ihv ihr =>
    intro h
    simp only [goodObs, Bool.and_eq_true] at h
    simp only [_obs_to_batched, ihv h.1, ihr h.2]
    rfl

/-- On an observation with a non-coercible leaf, `_obs_to_batched` raises. -/
theorem batch_bad : ∀ ob : Obs, goodObs ob = false → ∃ e, _obs_to_batched ob = .error e := by
  intro ob
  induction ob with
  | leaf l =>
    cases l with
    | arr s d => intro h; simp [goodObs] at h
    | bad t => intro _; exact ⟨⟨t⟩, rfl⟩
  | mnil => intro h; simp [goodObs] at h
  | mcons k v r ihv ihr =>
    intro h
    simp only [goodObs, Bool.and_eq_false_iff] at h
    rcases h with hv | hr
    · obtain ⟨e, he⟩ := ihv hv
      refine ⟨e, ?_⟩
      simp only [_obs_to_batched, he]
      rfl
    · by_cases hv : goodObs v = true
      · obtain ⟨e, he⟩ := ihr hr
        refine ⟨e, ?_⟩
        simp only [_obs_to_batched, batch_good v hv, he]
        rfl
      · obtain ⟨e, he⟩ := ihv (by simpa using hv)
        refine ⟨e, ?_⟩
        simp only [_obs_to_batched, he]
        rfl

/-- Batching preserves the key skeleton. -/
theorem skeleton_batchMap : ∀ ob : Obs, skeleton (batchMap ob) = skeleton ob := by
  intro ob
  induction ob with
  | leaf l => rfl
  | mnil => rfl
  | mcons k v r ihv ihr => simp [batchMap, skeleton, ihv, ihr]

/-- Batching maps each leaf in place. -/
theorem leaves_batchMap : ∀ ob : Obs, leaves (batchMap ob) = (leaves ob).map batchLeaf := by
  intro ob
  induction ob with
  | leaf l => rfl
  | mnil => rfl
  | mcons k v r ihv ihr => simp [batchMap, leaves, ihv, ihr]

/-- The loop body increments `ep_len` by exactly one. -/
theorem runStep_len {σ : Type} (imageio : Bool) (cv2 : Option ResizeFn) (agent : Agent)
    (env : Env σ) (render : Bool) (hw : Nat × Nat) (s : σ) (b : Obs) (key : Key)
    (acc : LoopAcc) :
    (runStep imageio cv2 agent env render hw s b key acc).acc.len = acc.len + 1 := rfl

/-- With `imageio` unavailable the loop body never appends a frame. -/
theorem runStep_frames_no_imageio {σ : Type} (cv2 : Option ResizeFn) (agent : Agent)
    (env : Env σ) (render : Bool) (hw : Nat × Nat) (s : σ) (b : Obs) (key : Key)
    (acc : LoopAcc) :
    (runStep false cv2 agent env render hw s b key acc).acc.frames = acc.frames := by
  unfold runStep
  cases render <;> simp <;> cases env.render (env.step s ((agent.sample_actions b (jaxSplit key).2).1)).state <;> simp

/-- With enough fuel the loop never exhausts it: `max_steps.toNat + 1` is
always sufficient because each iteration increments `ep_len` and the loop
breaks as soon as `ep_len ≥ max_steps`. -/
theorem runLoopF_isSome {σ : Type} (imageio : Bool) (cv2 : Option ResizeFn) (agent : Agent)
    (env : Env σ) (render : Bool) (ms : Int) (hw : Nat × Nat) :
    ∀ (fuel : Nat) (s : σ) (obs : Obs) (key : Key) (acc : LoopAcc),
      ms.toNat ≤ acc.len + fuel → 1 ≤ fuel →
      runLoopF imageio cv2 agent env render ms hw fuel s obs key acc ≠ none := by
  intro fuel
  induction fuel with
  | zero => intro s obs key acc _ h1; omega
  | succ fuel ih =>
    intro s obs key acc hle _
    simp only [runLoopF]
    split
    · simp
    · rename_i b hb
      split
      · simp
      · rename_i hcond
        have h3 : ¬ ms ≤ (((runStep imageio cv2 agent env render hw s b key acc).acc.len : Nat) : Int) :=
          fun hc => hcond (Or.inr (Or.inr hc))
        rw [runStep_len] at h3
        apply ih
        · rw [runStep_len]
          omega
        · omega

/-- Main loop invariant: a successful loop run preserves the bookkeeping
relations between the accumulators and the traces, threads the key chain,
keeps the length within the ceiling, never grows the frame buffer without
`imageio`, and reaches the ceiling exactly when the environment never
reports termination or truncation. -/
theorem runLoopF_ok_spec {σ : Type} (imageio : Bool) (cv2 : Option ResizeFn) (agent : Agent)
    (env : Env σ) (render : Bool) (ms : Int) (hw : Nat × Nat) :
    ∀ (fuel : Nat) (s : σ) (obs : Obs) (key : Key) (acc : LoopAcc) (out : LoopAcc),
      runLoopF imageio cv2 agent env render ms hw fuel s obs key acc = some (.ok out) →
      key = keyChain acc.len →
      acc.seeds = (List.range acc.len).map subKey →
      acc.len = acc.actions.length →
      acc.len = acc.rewards.length →
      acc.ret = acc.rewards.sum →
      out.len = out.actions.length ∧ out.len = out.rewards.length ∧
        out.ret = out.rewards.sum ∧
        out.seeds = (List.range out.len).map subKey ∧
        acc.len + 1 ≤ out.len ∧
        out.len ≤ max ms.toNat (acc.len + 1) ∧
        (imageio = false → out.frames = acc.frames) ∧
        ((∀ s2 a2, (env.step s2 a2).terminated = false ∧ (env.step s2 a2).truncated = false) →
          out.len = max ms.toNat (acc.len + 1)) := by
  intro fuel
  induction fuel with
  | zero =>
    intro s obs key acc out h
    simp [runLoopF] at h
  | succ fuel ih =>
    intro s obs key acc out h hkey hseeds hact hrew hret
    simp only [runLoopF] at h
    split at h
    · exact absurd h (by simp)
    · rename_i b hb
      set it := runStep imageio cv2 agent env render hw s b key acc with hit
      have hlen : it.acc.len = acc.len + 1 := rfl
      have hseeds2 : it.acc.seeds = (List.range it.acc.len).map subKey := by
        have : it.acc.seeds = acc.seeds ++ [(jaxSplit key).2] := rfl
        rw [this, hseeds, hkey, hlen, List.range_succ]
        simp [subKey]
      have hact2 : it.acc.len = it.acc.actions.length := by
        have : it.acc.actions = acc.actions ++ [(agent.sample_actions b (jaxSplit key).2).1] := rfl
        rw [this, hlen]
        simp [hact]
      have hrew2 : it.acc.len = it.acc.rewards.length := by
        have : it.acc.rewards = acc.rewards ++ [(env.step s ((agent.sample_actions b (jaxSplit key).2).1)).reward] := rfl
        rw [this, hlen]
        simp [hrew]
      have hret2 : it.acc.ret = it.acc.rewards.sum := by
        have h1 : it.acc.ret = acc.ret + (env.step s ((agent.sample_actions b (jaxSplit key).2).1)).reward := rfl
        have h2 : it.acc.rewards = acc.rewards ++ [(env.step s ((agent.sample_actions b (jaxSplit key).2).1)).reward] := rfl
        rw [h1, h2, hret]
        simp
      have hkey2 : it.key = keyChain it.acc.len := by
        have : it.key = (jaxSplit key).1 := rfl
        rw [this, hkey, hlen]
        rfl
      have hfr : imageio = false → it.acc.frames = acc.frames := by
        intro hio
        subst hio
        exact runStep_frames_no_imageio cv2 agent env render hw s b key acc
      split at h
      · rename_i hcond
        have hout : out = it.acc := by
          injection h with h1
          injection h1 with h2
          exact h2.symm
        subst hout
        refine ⟨hact2, hrew2, hret2, hseeds2, by omega, by omega, hfr, ?_⟩
        intro hnever
        have hterm : it.terminated = false := (hnever s ((agent.sample_actions b (jaxSplit key).2).1)).1
        have htrunc : it.truncated = false := (hnever s ((agent.sample_actions b (jaxSplit key).2).1)).2
        rcases hcond with hc | hc | hc
        · rw [hterm] at hc; exact absurd hc (by simp)
        · rw [htrunc] at hc; exact absurd hc (by simp)
        · rw [hlen] at hc ⊢
          omega
      · rename_i hcond
        have hnotms : ¬ ms ≤ ((it.acc.len : Nat) : Int) :=
          fun hc => hcond (Or.inr (Or.inr hc))
        rw [hlen] at hnotms
        obtain ⟨o1, o2, o3, o4, o5, o6, o7, o8⟩ :=
          ih it.s it.obs it.key it.acc out h hkey2 hseeds2 hact2 hrew2 hret2
        refine ⟨o1, o2, o3, o4, by omega, ?_, fun hio => (o7 hio).trans (hfr hio), ?_⟩
        · rw [hlen] at o6
          omega
        · intro hnever
          have := o8 hnever
          rw [hlen] at this
          rw [this]
          omega

/-- The episode loop always returns: the fuel chosen by `run_episode` is
never exhausted. -/
theorem run_episode_ne_none {σ : Type} (imageio : Bool) (cv2 : Option ResizeFn) (agent : Agent)
    (env : Env σ) (render : Bool) (rp : Option String) (ms : Int) (hw : Nat × Nat) :
    run_episode imageio cv2 agent env render rp ms hw ≠ none := by
  unfold run_episode
  have h := runLoopF_isSome imageio cv2 agent env render ms hw (ms.toNat + 1)
    (env.reset).1 (_resize_top cv2 hw (env.reset).2) (PRNGKey 0) ⟨0, 0, [], [], [], []⟩
    (by simp) (by omega)
  cases hr : runLoopF imageio cv2 agent env render ms hw (ms.toNat + 1)
      (env.reset).1 (_resize_top cv2 hw (env.reset).2) (PRNGKey 0) ⟨0, 0, [], [], [], []⟩ with
  | none => exact absurd hr h
  | some r =>
    simp only [hr]
    cases r <;> simp

/-- Everything a successful `run_episode` outcome satisfies: the returned
record is the reward sum and the step count, the sub-seed trace is the
fixed prefix of the hard-coded key sequence, the length is at least 1 and
at most `max max_steps.toNat 1`, frames require `imageio`, a
never-terminating environment runs exactly to the ceiling, and the video
field follows the flush condition. -/
theorem run_episode_ok_spec {σ : Type} (imageio : Bool) (cv2 : Option ResizeFn) (agent : Agent)
    (env : Env σ) (render : Bool) (rp : Option String) (ms : Int) (hw : Nat × Nat)
    (out : RunOut) :
    run_episode imageio cv2 agent env render rp ms hw = some (.ok out) →
    out.result.return_ = out.rewards.sum ∧
    out.result.length = out.actions.length ∧
    out.result.length = out.rewards.length ∧
    out.seeds = (List.range out.result.length).map subKey ∧
    1 ≤ out.result.length ∧
    out.result.length ≤ max ms.toNat 1 ∧
    (imageio = false → out.frames = []) ∧
    ((∀ s a, (env.step s a).terminated = false ∧ (env.step s a).truncated = false) →
      out.result.length = max ms.toNat 1) ∧
    out.video = (if pathTruthy rp && imageio && !out.frames.isEmpty then
      some (rp.getD "", out.frames, 30) else none) := by
  intro h
  unfold run_episode at h
  dsimp only at h
  split at h
  · exact absurd h (by simp)
  · exact absurd h (by simp)
  · rename_i acc hr
    obtain ⟨o1, o2, o3, o4, o5, o6, o7, o8⟩ :=
      runLoopF_ok_spec imageio cv2 agent env render ms hw (ms.toNat + 1)
        (env.reset).1 (_resize_top cv2 hw (env.reset).2) (PRNGKey 0) ⟨0, 0, [], [], [], []⟩
        acc hr rfl rfl rfl rfl rfl
    have hout : out = { result := { return_ := acc.ret, length := acc.len }
                        actions := acc.actions
                        seeds := acc.seeds
                        rewards := acc.rewards
                        frames := acc.frames
                        video := if pathTruthy rp && imageio && !acc.frames.isEmpty then
                            some (rp.getD "", acc.frames, 30) else none } := by
      injection h with h1
      injection h1 with h2
      exact h2.symm
    subst hout
    refine ⟨o3, o1, o2, o4, by simpa using o5, by simpa using o6, o7, ?_, rfl⟩
    intro hnever
    simpa using o8 hnever

/-- Updating a present key makes `lookup` return the new value. -/
theorem lookup_updateKey_self : ∀ (ob : Obs) (k : String) (v old : Obs),
    lookup ob k = some old → lookup (updateKey ob k v) k = some v := by
  intro ob
  induction ob with
  | leaf l => intro k v old h; simp [lookup] at h
  | mnil => intro k v old h; simp [lookup] at h
  | mcons k2 v2 r ihv ihr =>
    intro k v old h
    by_cases hk : k2 = k
    · subst hk
      simp [updateKey, lookup]
    · simp only [lookup, if_neg hk] at h
      simp only [updateKey, if_neg hk, lookup, if_neg hk]
      exact ihr k v old h

/-- Updating one key leaves every other key's binding unchanged. -/
theorem lookup_updateKey_other : ∀ (ob : Obs) (k : String) (v : Obs) (k2 : String),
    k2 ≠ k → lookup (updateKey ob k v) k2 = lookup ob k2 := by
  intro ob
  induction ob with
  | leaf l => intro k v k2 _; rfl
  | mnil => intro k v k2 _; rfl
  | mcons k3 v3 r ihv ihr =>
    intro k v k2 hne
    by_cases hk : k3 = k
    · subst hk
      have : ¬ k3 = k2 := fun h => hne (h.symm)
      simp [updateKey, lookup, this]
    · simp only [updateKey, if_neg hk, lookup]
      by_cases h2 : k3 = k2
      · simp [h2]
      · simp [h2, ihr k v k2 hne]

/-- C1 counterexample: the claim says the returned length is at most the
configured ceiling for every call, but with ceiling 0 and an environment
that never reports termination or truncation, `run_episode` still performs
one step and returns length 1, which exceeds the ceiling. -/
theorem C1_counterexample :
    run_episode false none agentC envNever false none 0 (240, 320) = some (.ok outNever0) ∧
    outNever0.result.length = 1 ∧ ¬((outNever0.result.length : Int) ≤ 0) :=
  ⟨rfl, rfl, by rw [show outNever0.result.length = 1 from rfl]; decide⟩

/-- C1 (amended): the episode loop always terminates; the returned length
is at most `max ceiling.toNat 1` (so at most the ceiling whenever the
ceiling is at least 1, and at most 1000 with the default ceiling), and for
an environment that never reports termination or truncation the length is
exactly `max ceiling.toNat 1`. -/
theorem C1_loop_termination {σ : Type} (imageio : Bool) (cv2 : Option ResizeFn) (agent : Agent)
    (env : Env σ) (render : Bool) (rp : Option String) (ms : Int) (hw : Nat × Nat) :
    run_episode imageio cv2 agent env render rp ms hw ≠ none ∧
    ∀ out, run_episode imageio cv2 agent env render rp ms hw = some (.ok out) →
      out.result.length ≤ max ms.toNat 1 ∧
      (1 ≤ ms → (out.result.length : Int) ≤ ms) ∧
      ((∀ s a, (env.step s a).terminated = false ∧ (env.step s a).truncated = false) →
        out.result.length = max ms.toNat 1) := by
  refine ⟨run_episode_ne_none imageio cv2 agent env render rp ms hw, ?_⟩
  intro out h
  obtain ⟨_, _, _, _, _, o6, _, o8, _⟩ :=
    run_episode_ok_spec imageio cv2 agent env render rp ms hw out h
  refine ⟨o6, fun hms => ?_, o8⟩
  omega

/-- C1 witness: with ceiling 2 and the never-terminating fixture the bounds
hold and the length is exactly 2. -/
theorem C1_witness :
    outNever2.result.length ≤ max (2 : Int).toNat 1 ∧
    (1 ≤ (2 : Int) → (outNever2.result.length : Int) ≤ 2) ∧
    outNever2.result.length = max (2 : Int).toNat 1 := by
  have h := (C1_loop_termination false none agentC envNever false none 2 (240, 320)).2 outNever2 rfl
  exact ⟨h.1, h.2.1, h.2.2 (fun _ _ => ⟨rfl, rfl⟩)⟩

/-- C2: in every successful episode the returned record's `return_` field
is the sum of the rewards received from `env.step` and its `length` field
is the number of `env.step` calls (one action is submitted per call). -/
theorem C2_return_length {σ : Type} (imageio : Bool) (cv2 : Option ResizeFn) (agent : Agent)
    (env : Env σ) (render : Bool) (rp : Option String) (ms : Int) (hw : Nat × Nat)
    (out : RunOut) (h : run_episode imageio cv2 agent env render rp ms hw = some (.ok out)) :
    out.result.return_ = out.rewards.sum ∧
    out.result.length = out.actions.length ∧
    out.result.length = out.rewards.length := by
  obtain ⟨o1, o2, o3, _⟩ := run_episode_ok_spec imageio cv2 agent env render rp ms hw out h
  exact ⟨o1, o2, o3⟩

/-- C2 witness: the fixture environment terminates on its second step with
rewards summing to 12.5; the returned record is the reward sum and the
step count. -/
theorem C2_witness :
    outT.result.return_ = outT.rewards.sum ∧
    outT.result.length = outT.actions.length ∧
    outT.result.length = outT.rewards.length :=
  C2_return_length false none agentC envT false none 1000 (240, 320) outT rfl

/-- C10: every episode performs at least one policy query and one `env.step`
before the first termination check, so the returned length, action trace and
seed trace are non-empty even when the ceiling is zero or negative. -/
theorem C10_at_least_one_step {σ : Type} (imageio : Bool) (cv2 : Option ResizeFn) (agent : Agent)
    (env : Env σ) (render : Bool) (rp : Option String) (ms : Int) (hw : Nat × Nat) :
    run_episode imageio cv2 agent env render rp ms hw ≠ none ∧
    ∀ out, run_episode imageio cv2 agent env render rp ms hw = some (.ok out) →
      1 ≤ out.result.length ∧ 1 ≤ out.actions.length ∧ 1 ≤ out.seeds.length := by
  refine ⟨run_episode_ne_none imageio cv2 agent env render rp ms hw, ?_⟩
  intro out h
  obtain ⟨_, o2, _, o4, o5, _⟩ := run_episode_ok_spec imageio cv2 agent env render rp ms hw out h
  refine ⟨o5, by omega, ?_⟩
  rw [o4]
  simpa using o5

/-- C10 witness: with the negative ceiling -5 the episode still runs one
step and returns length 1. -/
theorem C10_witness :
    1 ≤ outNeg.result.length ∧ 1 ≤ outNeg.actions.length ∧ 1 ≤ outNeg.seeds.length :=
  (C10_at_least_one_step false none agentC envNever false none (-5) (240, 320)).2 outNeg (by rfl)

/-- C3: `run_episode` is a deterministic function of its inputs — two runs
against environments and policies with identical responses produce the same
outcome, in particular identical action sequences and episode records. -/
theorem C3_determinism {σ : Type} (imageio : Bool) (cv2 : Option ResizeFn) (a1 a2 : Agent)
    (e1 e2 : Env σ) (render : Bool) (rp : Option String) (ms : Int) (hw : Nat × Nat)
    (hreset : e1.reset = e2.reset)
    (hstep : ∀ s a, e1.step s a = e2.step s a)
    (hrender : ∀ s, e1.render s = e2.render s)
    (hagent : ∀ ob k, a1.sample_actions ob k = a2.sample_actions ob k) :
    run_episode imageio cv2 a1 e1 render rp ms hw =
      run_episode imageio cv2 a2 e2 render rp ms hw ∧
    ∀ o1 o2, run_episode imageio cv2 a1 e1 render rp ms hw = some (.ok o1) →
      run_episode imageio cv2 a2 e2 render rp ms hw = some (.ok o2) →
      o1.actions = o2.actions ∧ o1.seeds = o2.seeds ∧ o1.result = o2.result := by
  have he : e1 = e2 := by
    cases e1
    cases e2
    simp only [Env.mk.injEq]
    refine ⟨hreset, ?_, ?_⟩
    · funext s a
      exact hstep s a
    · funext s
      exact hrender s
  have ha : a1 = a2 := by
    cases a1
    cases a2
    simp only [Agent.mk.injEq]
    funext ob k
    exact hagent ob k
  subst he
  subst ha
  refine ⟨rfl, fun o1 o2 h1 h2 => ?_⟩
  rw [h1] at h2
  injection h2 with h3
  injection h3 with h4
  exact ⟨by rw [h4], by rw [h4], by rw [h4]⟩

/-- C3 witness: two runs with the same fixture policy and environment give
equal outcomes. -/
theorem C3_witness :
    run_episode false none agentC envNever false none 2 (240, 320) =
      run_episode false none agentC envNever false none 2 (240, 320) ∧
    outNever2.actions = outNever2.actions ∧ outNever2.seeds = outNever2.seeds ∧
    outNever2.result = outNever2.result := by
  have h := C3_determinism false none agentC agentC envNever envNever false none 2 (240, 320)
    rfl (fun _ _ => rfl) (fun _ => rfl) (fun _ _ => rfl)
  exact ⟨h.1, (h.2 outNever2 outNever2 rfl rfl).1, (h.2 outNever2 outNever2 rfl rfl).2⟩

/-- C6 counterexample: the claim says a non-empty frame buffer is always
flushed, but with `record_path=None` the fixture episode ends with frame
buffer `[7]` and no video artifact is produced. -/
theorem C6_counterexample :
    run_episode true none agentC envR true none 5 (240, 320) = some (.ok outR) ∧
    outR.frames ≠ [] ∧ outR.video = none :=
  ⟨rfl, by rw [show outR.frames = [7] from rfl]; simp, rfl⟩

/-- C6 (amended): when the episode loop ends with a non-empty frame buffer
AND a truthy target path is configured, the buffer is flushed to a single
video artifact at 30 fps before `run_episode` returns; without a configured
path, or with an empty buffer, no artifact is produced. -/
theorem C6_flush {σ : Type} (imageio : Bool) (cv2 : Option ResizeFn) (agent : Agent)
    (env : Env σ) (render : Bool) (rp : Option String) (ms : Int) (hw : Nat × Nat)
    (out : RunOut) (h : run_episode imageio cv2 agent env render rp ms hw = some (.ok out)) :
    (out.frames ≠ [] → pathTruthy rp = true →
      out.video = some (rp.getD "", out.frames, 30)) ∧
    (pathTruthy rp = false → out.video = none) ∧
    (out.frames = [] → out.video = none) := by
  obtain ⟨_, _, _, _, _, _, o7, _, o9⟩ :=
    run_episode_ok_spec imageio cv2 agent env render rp ms hw out h
  refine ⟨fun hne hp => ?_, fun hp => ?_, fun hemp => ?_⟩
  · have hio : imageio = true := by
      cases hio : imageio
      · exact absurd (o7 hio) hne
      · rfl
    rw [o9, hp, hio]
    simp [List.isEmpty_iff, hne]
  · rw [o9, hp]
    simp
  · rw [o9, hemp]
    simp

/-- C6 witness: same rendering fixture with a configured path — the buffer
`[7]` is flushed to the configured artifact at 30 fps. -/
theorem C6_witness : outRP.video = some ("videos/ep.mp4", [7], 30) := by
  have h := (C6_flush true none agentC envR true (some "videos/ep.mp4") 5 (240, 320) outRP rfl).1
    (by rw [show outRP.frames = [7] from rfl]; simp) rfl
  rw [h, show outRP.frames = [7] from rfl]
  rfl

/-- C7: an observation with a leaf that cannot be coerced to a numeric
array makes the batching adapter fail with a `MalformedObservation` error,
and the error propagates out of `run_episode` instead of being caught. -/
theorem C7_malformed (ob : Obs) (h : goodObs ob = false) :
    (∃ e, _obs_to_batched ob = .error e) ∧
    ∀ (σ : Type) (imageio : Bool) (cv2 : Option ResizeFn) (agent : Agent) (env : Env σ)
      (render : Bool) (rp : Option String) (ms : Int) (hw : Nat × Nat),
      goodObs (_resize_top cv2 hw (env.reset).2) = false →
      ∃ e, run_episode imageio cv2 agent env render rp ms hw = some (.error e) := by
  refine ⟨batch_bad ob h, ?_⟩
  intro σ imageio cv2 agent env render rp ms hw h0
  obtain ⟨e, he⟩ := batch_bad _ h0
  refine ⟨e, ?_⟩
  unfold run_episode
  dsimp only
  simp only [runLoopF, he]

/-- C7 witness: the malformed fixture observation makes the adapter fail,
and an environment resetting to it aborts the episode with the error. -/
theorem C7_witness :
    (∃ e, _obs_to_batched obBad = .error e) ∧
    (∃ e, run_episode false none agentC envBad false none 1000 (240, 320) = some (.error e)) := by
  have h := C7_malformed obBad rfl
  exact ⟨h.1, h.2 Unit false none agentC envBad false none 1000 (240, 320) rfl⟩

/-- C8: within one episode the sub-seed passed to `sample_actions` on step
`k` is the `k`-th element of the fixed split chain, and for any episode of
at most 1000 steps (every episode under the default ceiling) the sub-seeds
are pairwise distinct — no seed is reused across steps. -/
theorem C8_seeds_distinct {σ : Type} (imageio : Bool) (cv2 : Option ResizeFn) (agent : Agent)
    (env : Env σ) (render : Bool) (rp : Option String) (ms : Int) (hw : Nat × Nat)
    (out : RunOut) (h : run_episode imageio cv2 agent env render rp ms hw = some (.ok out)) :
    out.seeds = (List.range out.result.length).map subKey ∧
    (out.result.length ≤ 1000 → out.seeds.Nodup) := by
  obtain ⟨_, _, _, o4, _⟩ := run_episode_ok_spec imageio cv2 agent env render rp ms hw out h
  refine ⟨o4, fun hle => ?_⟩
  rw [o4]
  exact range_subKey_nodup _ hle

/-- C8 witness: the two sub-seeds of the two-step fixture episode follow
the split chain and are distinct. -/
theorem C8_witness :
    outNever2.seeds = (List.range outNever2.result.length).map subKey ∧
    outNever2.seeds.Nodup := by
  have h := C8_seeds_distinct false none agentC envNever false none 2 (240, 320) outNever2 rfl
  exact ⟨h.1, h.2 (by rw [show outNever2.result.length = 2 from rfl]; omega)⟩

/-- C9: the root seed is hard-coded (`PRNGKey(0)`), so any two invocations
of `run_episode` — with possibly different environments, policies and
configurations — derive the same fixed sub-seed sequence: the k-th sub-seed
of one run equals the k-th sub-seed of the other whenever both runs reach
step k. -/
theorem C9_fixed_root_seed {σ1 σ2 : Type} (i1 : Bool) (c1 : Option ResizeFn) (a1 : Agent)
    (e1 : Env σ1) (r1 : Bool) (p1 : Option String) (m1 : Int) (w1 : Nat × Nat)
    (i2 : Bool) (c2 : Option ResizeFn) (a2 : Agent) (e2 : Env σ2) (r2 : Bool)
    (p2 : Option String) (m2 : Int) (w2 : Nat × Nat) (o1 o2 : RunOut)
    (h1 : run_episode i1 c1 a1 e1 r1 p1 m1 w1 = some (.ok o1))
    (h2 : run_episode i2 c2 a2 e2 r2 p2 m2 w2 = some (.ok o2)) :
    o1.seeds = (List.range o1.result.length).map subKey ∧
    o2.seeds = (List.range o2.result.length).map subKey ∧
    ∀ k, (hk1 : k < o1.seeds.length) → (hk2 : k < o2.seeds.length) →
      o1.seeds.get ⟨k, hk1⟩ = o2.seeds.get ⟨k, hk2⟩ := by
  obtain ⟨_, _, _, s1, _⟩ := run_episode_ok_spec i1 c1 a1 e1 r1 p1 m1 w1 o1 h1
  obtain ⟨_, _, _, s2, _⟩ := run_episode_ok_spec i2 c2 a2 e2 r2 p2 m2 w2 o2 h2
  refine ⟨s1, s2, fun k hk1 hk2 => ?_⟩
  have g1 : o1.seeds.get ⟨k, hk1⟩ = subKey k := by
    simp only [List.get_eq_getElem]
    rw [List.getElem_of_eq s1 hk1]
    simp
  have g2 : o2.seeds.get ⟨k, hk2⟩ = subKey k := by
    simp only [List.get_eq_getElem]
    rw [List.getElem_of_eq s2 hk2]
    simp
  rw [g1, g2]

/-- C9 witness: the first sub-seed of the two-step fixture run equals the
first sub-seed of the different terminating fixture run. -/
theorem C9_witness :
    outNever2.seeds.get ⟨0, by rw [show outNever2.seeds.length = 2 from rfl]; omega⟩ =
      outT.seeds.get ⟨0, by rw [show outT.seeds.length = 2 from rfl]; omega⟩ := by
  have h := C9_fixed_root_seed false none agentC envNever false none 2 (240, 320)
    false none agentC envT false none 1000 (240, 320) outNever2 outT rfl rfl
  exact h.2.2 0 _ _

/-- C4: on any observation whose leaves are all coercible, the batching
adapter succeeds and returns the structure-preserving map that leaves keys
and nesting identical and gives every leaf exactly one new leading
dimension of size 1 with its data unchanged (the operation is pure: the
input observation value is untouched). -/
theorem C4_batch_shape (ob : Obs) (h : goodObs ob = true) :
    _obs_to_batched ob = .ok (batchMap ob) ∧
    skeleton (batchMap ob) = skeleton ob ∧
    leaves (batchMap ob) = (leaves ob).map batchLeaf ∧
    ∀ shape data, batchLeaf (.arr shape data) = .arr (1 :: shape) data :=
  ⟨batch_good ob h, skeleton_batchMap ob, leaves_batchMap ob, fun _ _ => rfl⟩

/-- C4 witness: the nested fixture observation batches to the same skeleton
with each leaf getting a leading 1. -/
theorem C4_witness :
    _obs_to_batched obPix = .ok (batchMap obPix) ∧
    skeleton (batchMap obPix) = skeleton obPix ∧
    leaves (batchMap obPix) = (leaves obPix).map batchLeaf ∧
    batchLeaf (.arr [480, 640, 3] [7]) = .arr (1 :: [480, 640, 3]) [7] := by
  have h := C4_batch_shape obPix rfl
  exact ⟨h.1, h.2.1, h.2.2.1, h.2.2.2 [480, 640, 3] [7]⟩

/-- C5: the resize transform touches only the `pixels → top` entry, and
only when that entry is a 3-dimensional array whose two leading dimensions
differ from the target; with the backend available and succeeding it
replaces exactly that entry by the backend's output (every other field of
the observation and of the `pixels` sub-dict is unchanged), and whenever
the backend is unavailable, the designated field is absent or ill-typed,
the resolution already matches, or the resize call raises, the observation
is returned unchanged. -/
theorem C5_resize_top (resize : ResizeFn) (hw : Nat × Nat) (ob : Obs) :
    _resize_top none hw ob = ob ∧
    (∀ l, ob = .leaf l → _resize_top (some resize) hw ob = ob) ∧
    (lookup ob "pixels" = none → _resize_top (some resize) hw ob = ob) ∧
    (∀ px, lookup ob "pixels" = some px → lookup px "top" = none →
      _resize_top (some resize) hw ob = ob) ∧
    (∀ px shape data, lookup ob "pixels" = some px →
      lookup px "top" = some (.leaf (.arr shape data)) →
      (shape.length ≠ 3 ∨ shape.take 2 = [hw.1, hw.2]) →
      _resize_top (some resize) hw ob = ob) ∧
    (∀ px shape data, lookup ob "pixels" = some px →
      lookup px "top" = some (.leaf (.arr shape data)) →
      shape.length = 3 → shape.take 2 ≠ [hw.1, hw.2] →
      resize (.arr shape data) hw.2 hw.1 = none →
      _resize_top (some resize) hw ob = ob) ∧
    (∀ px shape data img2, lookup ob "pixels" = some px →
      lookup px "top" = some (.leaf (.arr shape data)) →
      shape.length = 3 → shape.take 2 ≠ [hw.1, hw.2] →
      resize (.arr shape data) hw.2 hw.1 = some img2 →
      _resize_top (some resize) hw ob =
        updateKey ob "pixels" (updateKey px "top" (.leaf img2)) ∧
      lookup (_resize_top (some resize) hw ob) "pixels" =
        some (updateKey px "top" (.leaf img2)) ∧
      lookup (updateKey px "top" (.leaf img2)) "top" = some (.leaf img2) ∧
      (∀ k, k ≠ "pixels" →
        lookup (_resize_top (some resize) hw ob) k = lookup ob k) ∧
      (∀ k, k ≠ "top" →
        lookup (updateKey px "top" (.leaf img2)) k = lookup px k)) := by
  refine ⟨rfl, ?_, ?_, ?_, ?_, ?_, ?_⟩
  · intro l hob
    subst hob
    rfl
  · intro hpx
    simp [_resize_top, hpx]
  · intro px hpx htop
    simp [_resize_top, hpx, htop]
  · intro px shape data hpx htop hcond
    rcases hcond with hlen | hres
    · simp [_resize_top, hpx, htop, hlen]
    · simp [_resize_top, hpx, htop, hres]
  · intro px shape data hpx htop hlen hne hfail
    simp [_resize_top, hpx, htop, hlen, hne, hfail]
  · intro px shape data img2 hpx htop hlen hne hsucc
    have hres : _resize_top (some resize) hw ob =
        updateKey ob "pixels" (updateKey px "top" (.leaf img2)) := by
      simp [_resize_top, hpx, htop, hlen, hne, hsucc]
    refine ⟨hres, ?_, ?_, ?_, ?_⟩
    · rw [hres]
      exact lookup_updateKey_self ob "pixels" _ px hpx
    · exact lookup_updateKey_self px "top" _ _ htop
    · intro k hk
      rw [hres]
      exact lookup_updateKey_other ob "pixels" _ k hk
    · intro k hk
      exact lookup_updateKey_other px "top" _ k hk

/-- C5 witness: on the fixture observation with a 480×640 image and the
(240, 320) target, a backend returning the target resolution replaces only
the `pixels → top` entry — which then has shape `[240, 320, 3]` — and the
`agent_pos` field is unchanged. -/
theorem C5_witness :
    _resize_top (some resizeW) (240, 320) obPix =
      updateKey obPix "pixels"
        (updateKey (Obs.mcons "top" (Obs.leaf (Leaf.arr [480, 640, 3] [7])) Obs.mnil) "top"
          (Obs.leaf (Leaf.arr [240, 320, 3] [7]))) ∧
    lookup (_resize_top (some resizeW) (240, 320) obPix) "pixels" =
      some (Obs.mcons "top" (Obs.leaf (Leaf.arr [240, 320, 3] [7])) Obs.mnil) ∧
    lookup (_resize_top (some resizeW) (240, 320) obPix) "agent_pos" =
      lookup obPix "agent_pos" := by
  have h := (C5_resize_top resizeW (240, 320) obPix).2.2.2.2.2.2
    (Obs.mcons "top" (Obs.leaf (Leaf.arr [480, 640, 3] [7])) Obs.mnil)
    [480, 640, 3] [7] (Leaf.arr [240, 320, 3] [7]) rfl rfl rfl (by decide) rfl
  refine ⟨h.1, ?_, h.2.2.2.1 "agent_pos" (by decide)⟩
  rw [h.2.1]
  rfl
